import Mathlib

/-!
# Level simulation and input fusion of `gesture-game.js`

A shallow embedding of the `Game` class of `juegos 4to semestre/gesture-game.js`
(the per-frame update functions, collision tests, level generation and progress
bookkeeping), followed by theorems about it.

Conventions of the embedding.

* JavaScript numbers are exact rationals (`ℚ`); counters that only ever hold
  integers (`level`, `deaths`, lives, the unlock watermark) are `ℤ`.
* `Math.sqrt`, `Math.sin`, `Math.cos`, `Math.PI`, `Math.random` and `Date.now`
  are external: they are fields of `Env`.  The n-th call of `Math.random`
  returns `env.random n`; the game counts the calls it has made.
* A division by a zero distance yields `NaN` or `±Infinity` in JavaScript; the
  only place where that can happen is a pointing block of `updatePlayer`, and
  it is modelled by `none` (a proposal that is not a finite number).
* Calls that leave the object (sound, notifications, storage writes, screens)
  are appended to `Game.log`.
* Fields used only by the renderer (`color`, `trail`, canvas handles) are left
  out.
* The two loaders of stored progress read the page through a `Browser` record
  (`localStorage.getItem`, `parseInt`, `JSON.parse`); `NaN` is `none` and a
  thrown exception is an `Except` error.
-/

set_option autoImplicit false

namespace GestureGame

/-! ## Data model -/

/-- Any object with `x`, `y`, `width`, `height`, as read by `isColliding`. -/
structure Rect where
  x : ℚ
  y : ℚ
  width : ℚ
  height : ℚ
deriving DecidableEq, Repr

/-- The `this.player` object (constructor, lines 224-233), without `trail`. -/
structure Player where
  x : ℚ
  y : ℚ
  width : ℚ
  height : ℚ
  speed : ℚ
  glowIntensity : ℚ
  bounceOffset : ℚ
deriving DecidableEq, Repr

/-- An obstacle without an `angle` property: it moves with `speedX`, `speedY`. -/
structure Linear where
  x : ℚ
  y : ℚ
  width : ℚ
  height : ℚ
  speedX : ℚ
  speedY : ℚ
deriving DecidableEq, Repr

/-- An obstacle with an `angle` property.  `centerX`, `centerY` are `none` when
the property is absent from the object. -/
structure Orbital where
  x : ℚ
  y : ℚ
  width : ℚ
  height : ℚ
  angle : ℚ
  radius : ℚ
  speed : ℚ
  centerX : Option ℚ
  centerY : Option ℚ
deriving DecidableEq, Repr

/-- Obstacles are told apart by `obstacle.angle !== undefined` (line 959). -/
inductive Obstacle where
  | linear (o : Linear)
  | orbital (o : Orbital)
deriving DecidableEq, Repr

/-- An element of `this.collectibles`. -/
structure Collectible where
  x : ℚ
  y : ℚ
  width : ℚ
  height : ℚ
  collected : Bool
deriving DecidableEq, Repr

/-- The colour string `hsl(h, 100%, l%)` of a particle. -/
structure Hsl where
  hue : ℚ
  lightness : ℚ
deriving DecidableEq, Repr

/-- An element of `this.particles`. -/
structure Particle where
  x : ℚ
  y : ℚ
  vx : ℚ
  vy : ℚ
  size : ℚ
  life : ℚ
  color : Hsl
deriving DecidableEq, Repr

/-- A pointing target `{x, y}` (`fingerTarget`, or `touchTarget` without its
unused `active` flag). -/
structure Target where
  x : ℚ
  y : ℚ
deriving DecidableEq, Repr

/-- A value of `this.levelStats[levelKey]`. -/
structure LevelStat where
  deaths : ℤ
  time : ℤ
  completed : Bool
deriving DecidableEq, Repr

/-- The `this.difficultyMultiplier` object. -/
structure Difficulty where
  speed : ℚ
  obstacles : ℚ
  collectibles : ℚ
deriving DecidableEq, Repr

/-- Calls that leave the `Game` object. -/
inductive Effect where
  | sound (frequency : ℚ) (duration : ℚ) (wave : String)
  | livesLeft (lives : ℤ)
  | gameOverScreen
  | victoryScreen
  | savedProgress (unlocked : ℤ)
  | savedLevelStats (level : ℤ) (stat : LevelStat)
deriving DecidableEq, Repr

/-- What the game reads from outside itself. -/
structure Env where
  sqrt : ℚ → ℚ
  sin : ℚ → ℚ
  cos : ℚ → ℚ
  pi : ℚ
  random : ℕ → ℚ
  now : ℕ → ℤ
  /-- The value of `window.gameSettings?.settings.gesturesSensitivity`; `none`
  when it is `undefined` (also when `window.gameSettings` is missing) or `NaN`,
  which `||` treats like `undefined`. -/
  gesturesSensitivity : Option ℚ

/-- The fields of a `Game` instance that the simulation reads or writes. -/
structure Game where
  width : ℚ
  height : ℚ
  level : ℤ
  deaths : ℤ
  startTime : ℤ
  gameOver : Bool
  paused : Bool
  time : ℚ
  maxLevel : ℤ
  unlockedLevels : ℤ
  /-- The stats object, keyed by the level number `n` of its key `level` ++ n. -/
  levelStats : ℤ → Option LevelStat
  particles : List Particle
  screenShake : ℚ
  flashEffect : ℚ
  player : Player
  particlesEnabled : Bool
  screenShakeEnabled : Bool
  keyboardEnabled : Bool
  livesEnabled : Bool
  maxLives : ℤ
  currentLives : ℤ
  gameSpeedMultiplier : ℚ
  qualityMultiplier : ℚ
  difficultyMultiplier : Difficulty
  /-- The key table `this.keys`; a key never written reads as `false`. -/
  keys : String → Bool
  fingerTarget : Option Target
  touchTarget : Option Target
  obstacles : List Obstacle
  collectibles : List Collectible
  /-- The goal rectangle; `initLevel` sets it in the constructor, before the
  first frame. -/
  goal : Rect
  /-- Number of `Math.random()` calls made so far. -/
  randCalls : ℕ
  /-- Number of `Date.now()` calls made so far. -/
  nowCalls : ℕ
  log : List Effect

def Player.rect (p : Player) : Rect :=
  { x := p.x, y := p.y, width := p.width, height := p.height }

def Collectible.rect (c : Collectible) : Rect :=
  { x := c.x, y := c.y, width := c.width, height := c.height }

def Obstacle.rect : Obstacle → Rect
  | .linear o => { x := o.x, y := o.y, width := o.width, height := o.height }
  | .orbital o => { x := o.x, y := o.y, width := o.width, height := o.height }

/-- JavaScript `v || d` for a number `v` that may be absent: `undefined` and `0`
are falsy. -/
def orDefault (v : Option ℚ) (d : ℚ) : ℚ :=
  match v with
  | none => d
  | some q => if q = 0 then d else q

/-! ## Collision test (lines 1018-1023) -/

def isColliding (rect1 rect2 : Rect) : Bool :=
  decide (rect1.x < rect2.x + rect2.width) &&
    decide (rect1.x + rect1.width > rect2.x) &&
    decide (rect1.y < rect2.y + rect2.height) &&
    decide (rect1.y + rect1.height > rect2.y)

/-! ## `updatePlayer` (lines 892-955) -/

/-- Lines 897-902: the keyboard block, acting on the accumulators
`(newX, newY)`. -/
def keyboardBlock (g : Game) (acc : ℚ × ℚ) : ℚ × ℚ :=
  if g.keyboardEnabled then
    let newY := if g.keys "w" || g.keys "arrowup" then acc.2 - g.player.speed else acc.2
    let newY := if g.keys "s" || g.keys "arrowdown" then newY + g.player.speed else newY
    let newX := if g.keys "a" || g.keys "arrowleft" then acc.1 - g.player.speed else acc.1
    let newX := if g.keys "d" || g.keys "arrowright" then newX + g.player.speed else newX
    (newX, newY)
  else acc

/-- The body shared by the two pointing blocks (lines 906-923 and 928-945), which
differ only in `sensitivity` and `threshold`.  Dividing by a zero `distance`
makes both directions `NaN` or `±Infinity`, and so both accumulators: `none`. -/
def pointingBlock (env : Env) (g : Game) (target : Target) (sensitivity threshold : ℚ)
    (acc : ℚ × ℚ) : Option (ℚ × ℚ) :=
  let playerCenterX := g.player.x + g.player.width / 2
  let playerCenterY := g.player.y + g.player.height / 2
  let deltaX := target.x - playerCenterX
  let deltaY := target.y - playerCenterY
  let distance := env.sqrt (deltaX * deltaX + deltaY * deltaY)
  if distance > threshold then
    if distance = 0 then none
    else
      let directionX := deltaX / distance
      let directionY := deltaY / distance
      let adjustedSpeed := g.player.speed * sensitivity
      some (acc.1 + directionX * adjustedSpeed, acc.2 + directionY * adjustedSpeed)
  else some acc

/-- Lines 905-924: the gesture block. -/
def gestureBlock (env : Env) (g : Game) (acc : ℚ × ℚ) : Option (ℚ × ℚ) :=
  match g.fingerTarget with
  | none => some acc
  | some target =>
    let sensitivity := orDefault env.gesturesSensitivity 1
    let threshold := 5 / sensitivity
    pointingBlock env g target sensitivity threshold acc

/-- Lines 927-946: the touch block. -/
def touchBlock (env : Env) (g : Game) (acc : ℚ × ℚ) : Option (ℚ × ℚ) :=
  match g.touchTarget with
  | none => some acc
  | some target =>
    let touchSensitivity : ℚ := 8 / 10
    let threshold : ℚ := 10
    pointingBlock env g target touchSensitivity threshold acc

/-- Lines 893-946: the value of `(newX, newY)` when the bounds test is reached;
`none` when it is not a pair of finite numbers. -/
def proposedPosition (env : Env) (g : Game) : Option (ℚ × ℚ) :=
  (gestureBlock env g (keyboardBlock g (g.player.x, g.player.y))).bind (touchBlock env g)

/-- Lines 948-954: each axis is written only when its proposal is in range; a
proposal that is not finite fails every comparison. -/
def updatePlayer (env : Env) (g : Game) : Game :=
  match proposedPosition env g with
  | none => g
  | some (newX, newY) =>
    let g1 := if 0 ≤ newX ∧ newX ≤ g.width - g.player.width then
      { g with player := { g.player with x := newX } } else g
    if 0 ≤ newY ∧ newY ≤ g1.height - g1.player.height then
      { g1 with player := { g1.player with y := newY } } else g1

/-! ## `updateObstacles` (lines 957-977) -/

/-- The body of the `forEach` callback for one obstacle. -/
def updateObstacle (env : Env) (g : Game) : Obstacle → Obstacle
  | .orbital o =>
    let speedMultiplier := g.gameSpeedMultiplier * g.difficultyMultiplier.speed
    let angle := o.angle + o.speed * speedMultiplier
    .orbital { o with
      angle := angle
      x := orDefault o.centerX 300 + env.cos angle * o.radius - o.width / 2
      y := orDefault o.centerY 300 + env.sin angle * o.radius - o.height / 2 }
  | .linear o =>
    let speedMultiplier := g.gameSpeedMultiplier * g.difficultyMultiplier.speed
    let x := o.x + o.speedX * speedMultiplier
    let y := o.y + o.speedY * speedMultiplier
    let speedX := if x ≤ 0 ∨ x ≥ g.width - o.width then o.speedX * -1 else o.speedX
    let speedY := if y ≤ 0 ∨ y ≥ g.height - o.height then o.speedY * -1 else o.speedY
    .linear { o with x := x, y := y, speedX := speedX, speedY := speedY }

def updateObstacles (env : Env) (g : Game) : Game :=
  { g with obstacles := g.obstacles.map (updateObstacle env g) }

/-! ## Loops and particles -/

/-- The loop `for (let i = 0; i < n; i++) body(i)`. -/
def forLoop (n : ℕ) (body : ℕ → Game → Game) (g : Game) : Game :=
  (List.range n).foldl (fun s i => body i s) g

/-- The value of the `k`-th `Math.random()` call counted from the current one. -/
def Game.rnd (env : Env) (g : Game) (k : ℕ) : ℚ :=
  env.random (g.randCalls + k)

/-- Append to the log of outside calls. -/
def Game.emit (g : Game) (e : Effect) : Game :=
  { g with log := g.log ++ [e] }

/-- The call `this.playSound(frequency, duration, type)`. -/
def playSound (g : Game) (frequency duration : ℚ) (wave : String) : Game :=
  g.emit (.sound frequency duration wave)

/-- Lines 1032-1049. -/
def collectItem (env : Env) (g : Game) : Game :=
  let g := playSound g 800 (2 / 10) "sine"
  if g.particlesEnabled then
    let particleCount := Int.toNat ⌊15 * g.qualityMultiplier⌋
    forLoop particleCount (fun _ s =>
      { s with
        particles := s.particles ++ [{
          x := s.player.x + s.player.width / 2
          y := s.player.y + s.player.height / 2
          vx := (s.rnd env 0 - 1 / 2) * 8
          vy := (s.rnd env 1 - 1 / 2) * 8
          size := s.rnd env 2 * 6 + 3
          life := 1
          color := { hue := 200, lightness := 70 + s.rnd env 3 * 30 } }]
        randCalls := s.randCalls + 4 }) g
  else g

/-- Lines 1051-1094. -/
def playerDied (env : Env) (g : Game) : Game :=
  let g := { g with deaths := g.deaths + 1 }
  let g := playSound g 200 (1 / 2) "sawtooth"
  let g := if g.screenShakeEnabled then { g with screenShake := 15 } else g
  let g := { g with flashEffect := 1 }
  let g :=
    if g.particlesEnabled then
      let particleCount := Int.toNat ⌊30 * g.qualityMultiplier⌋
      forLoop particleCount (fun _ s =>
        { s with
          particles := s.particles ++ [{
            x := s.player.x + s.player.width / 2
            y := s.player.y + s.player.height / 2
            vx := (s.rnd env 0 - 1 / 2) * 12
            vy := (s.rnd env 1 - 1 / 2) * 12
            size := s.rnd env 2 * 8 + 4
            life := 1
            color := { hue := s.rnd env 3 * 60, lightness := 50 + s.rnd env 4 * 50 } }]
          randCalls := s.randCalls + 5 }) g
    else g
  if g.livesEnabled then
    let g := { g with currentLives := g.currentLives - 1 }
    if g.currentLives > 0 then
      let g := { g with player := { g.player with x := 50, y := 300 } }
      g.emit (.livesLeft g.currentLives)
    else
      let g := { g with gameOver := true }
      g.emit .gameOverScreen
  else
    { g with
      player := { g.player with x := 50, y := 300 }
      collectibles := g.collectibles.map (fun c => { c with collected := false }) }

/-! ## `checkCollisions` (lines 1003-1016) -/

/-- The second `forEach`: walks the collectibles in order, returning the updated
list together with the game after the `collectItem` calls. -/
def collectLoop (env : Env) : List Collectible → Game → List Collectible × Game
  | [], s => ([], s)
  | collectible :: rest, s =>
    if !collectible.collected && isColliding s.player.rect collectible.rect then
      let r := collectLoop env rest (collectItem env s)
      ({ collectible with collected := true } :: r.1, r.2)
    else
      let r := collectLoop env rest s
      (collectible :: r.1, r.2)

def checkCollisions (env : Env) (g : Game) : Game :=
  let g1 := g.obstacles.foldl
    (fun s obstacle => if isColliding s.player.rect obstacle.rect then playerDied env s else s) g
  let r := collectLoop env g1.collectibles g1
  { r.2 with collectibles := r.1 }

/-! ## Progress bookkeeping (lines 294-311) -/

def saveProgress (g : Game) : Game :=
  g.emit (.savedProgress g.unlockedLevels)

def unlockNextLevel (g : Game) : Game :=
  if g.level ≥ g.unlockedLevels ∧ g.level < g.maxLevel then
    saveProgress { g with unlockedLevels := g.level + 1 }
  else g

def recordLevelCompletion (g : Game) (deaths time : ℤ) : Game :=
  let missingOrWorse : Bool :=
    match g.levelStats g.level with
    | none => true
    | some stat => decide (stat.deaths > deaths)
  if missingOrWorse then
    let stat : LevelStat := { deaths := deaths, time := time, completed := true }
    let g := { g with levelStats := Function.update g.levelStats g.level (some stat) }
    g.emit (.savedLevelStats g.level stat)
  else g

/-! ## Level generation (lines 668-867) -/

/-- The factor `(i % 2 === 0 ? 1 : -1)`. -/
def evenSign (i : ℕ) : ℚ := if i % 2 = 0 then 1 else -1

def Game.pushObstacle (g : Game) (o : Obstacle) : Game :=
  { g with obstacles := g.obstacles ++ [o] }

def Game.pushCollectible (g : Game) (c : Collectible) : Game :=
  { g with collectibles := g.collectibles ++ [c] }

def createLevel1 (g : Game) : Game :=
  let g := forLoop 5 (fun i s => s.pushObstacle (.linear {
    x := 180 + i * 120, y := 150 + i * 60, width := 18, height := 18,
    speedX := 35 / 10 + i * (7 / 10), speedY := 2 + i * (5 / 10) })) g
  let g := g.pushCollectible { x := 350, y := 250, width := 9, height := 9, collected := false }
  g.pushCollectible { x := 500, y := 350, width := 9, height := 9, collected := false }

def createLevel2 (env : Env) (g : Game) : Game :=
  let g := forLoop 7 (fun i s => s.pushObstacle (.linear {
    x := 140 + i * 90, y := 120 + env.sin (i * (8 / 10)) * 80, width := 16, height := 16,
    speedX := 45 / 10 * evenSign i, speedY := 3 * evenSign i })) g
  let g := forLoop 2 (fun i s => s.pushObstacle (.orbital {
    x := 400, y := 200, width := 14, height := 14,
    angle := i * env.pi, radius := 60 + i * 30, speed := 8 / 100 + i * (2 / 100),
    centerX := none, centerY := none })) g
  forLoop 3 (fun i s => s.pushCollectible {
    x := 280 + i * 160, y := 200 + i * 80, width := 8, height := 8, collected := false }) g

def createLevel3 (env : Env) (g : Game) : Game :=
  let g := forLoop 6 (fun i s => s.pushObstacle (.orbital {
    x := 300, y := 300, width := 17, height := 17,
    angle := i * env.pi / 3, radius := 80 + i * 25, speed := 7 / 100 + i * (15 / 1000),
    centerX := none, centerY := none })) g
  let g := forLoop 3 (fun i s => s.pushObstacle (.linear {
    x := 150 + i * 200, y := 100 + i * 150, width := 16, height := 16,
    speedX := 5 * evenSign i, speedY := 35 / 10 * evenSign i })) g
  let g := g.pushCollectible { x := 295, y := 295, width := 8, height := 8, collected := false }
  g.pushCollectible { x := 450, y := 200, width := 8, height := 8, collected := false }

def createLevel4 (env : Env) (g : Game) : Game :=
  let g := forLoop 8 (fun i s => s.pushObstacle (.orbital {
    x := 400, y := 300, width := 15, height := 15,
    angle := i * env.pi / 4, radius := 100 + i * 15, speed := 5 / 100 + i * (1 / 100),
    centerX := none, centerY := none })) g
  let g := forLoop 4 (fun i s => s.pushObstacle (.linear {
    x := 100 + i * 150, y := 100 + i * 100, width := 20, height := 20,
    speedX := 4 * evenSign i, speedY := 3 * -evenSign i })) g
  forLoop 3 (fun i s => s.pushCollectible {
    x := 200 + i * 200, y := 150 + i * 100, width := 8, height := 8, collected := false }) g

def createLevel5 (env : Env) (g : Game) : Game :=
  let g := forLoop 2 (fun j s => forLoop 6 (fun i s => s.pushObstacle (.orbital {
    x := 200 + j * 400, y := 300, width := 14, height := 14,
    angle := i * env.pi / 3 + j * env.pi, radius := 80 + i * 20,
    speed := (6 / 100 + i * (1 / 100)) * (if j = 0 then 1 else -1),
    centerX := none, centerY := none })) s) g
  let g := forLoop 3 (fun i s => s.pushObstacle (.linear {
    x := 350 + i * 50, y := 250 + i * 50, width := 18, height := 18,
    speedX := 3 * evenSign i, speedY := 4 * -evenSign i })) g
  forLoop 4 (fun i s => s.pushCollectible {
    x := 150 + i * 150, y := 200 + ((i % 2 : ℕ) : ℚ) * 200, width := 7, height := 7,
    collected := false }) g

/-- Account for `k` further `Math.random()` calls. -/
def Game.consume (g : Game) (k : ℕ) : Game :=
  { g with randCalls := g.randCalls + k }

def createRandomLevel (env : Env) (g : Game) : Game :=
  let difficultyMultiplier : ℚ := 1 + ((g.level : ℚ) - 6) * (3 / 10)
  let numObstacles : ℚ := 8 + (g.level : ℚ) * 2
  let g := forLoop (Int.toNat ⌊numObstacles / 2⌋) (fun _ s =>
    (s.pushObstacle (.orbital {
      x := 400, y := 300, width := 15 + s.rnd env 0 * 5, height := 15 + s.rnd env 1 * 5,
      angle := s.rnd env 2 * env.pi * 2, radius := 80 + s.rnd env 3 * 100,
      speed := (5 / 100 + s.rnd env 4 * (5 / 100)) * difficultyMultiplier,
      centerX := none, centerY := none })).consume 5) g
  let g := forLoop (Int.toNat ⌊numObstacles / 2⌋) (fun _ s =>
    (s.pushObstacle (.linear {
      x := s.rnd env 0 * (s.width - 120) + 60,
      y := s.rnd env 1 * (s.height - 120) + 60,
      width := 14 + s.rnd env 2 * 8,
      height := 14 + s.rnd env 3 * 8,
      speedX := (s.rnd env 4 - 1 / 2) * 8 * difficultyMultiplier,
      speedY := (s.rnd env 5 - 1 / 2) * 8 * difficultyMultiplier })).consume 6) g
  let numCollectibles : ℤ := min 5 (⌊(g.level : ℚ) / 2⌋ + 2)
  forLoop (Int.toNat numCollectibles) (fun _ s =>
    (s.pushCollectible {
      x := s.rnd env 0 * (s.width - 250) + 125,
      y := s.rnd env 1 * (s.height - 150) + 75,
      width := ((max 6 (9 - ⌊(s.level : ℚ) / 4⌋) : ℤ) : ℚ),
      height := ((max 6 (9 - ⌊(s.level : ℚ) / 4⌋) : ℤ) : ℚ),
      collected := false }).consume 2) g

def initLevel (env : Env) (g : Game) : Game :=
  let g := { g with
    obstacles := [], collectibles := [], player := { g.player with x := 50, y := 300 } }
  let g :=
    if g.level = 1 then createLevel1 g
    else if g.level = 2 then createLevel2 env g
    else if g.level = 3 then createLevel3 env g
    else if g.level = 4 then createLevel4 env g
    else if g.level = 5 then createLevel5 env g
    else createRandomLevel env g
  { g with goal := { x := g.width - 80, y := g.height / 2 - 40, width := 60, height := 80 } }

/-! ## Level transition (lines 1096-1123) and win test (lines 1025-1030) -/

def showVictoryScreen (g : Game) : Game :=
  g.emit .victoryScreen

def nextLevel (env : Env) (g : Game) : Game :=
  let elapsed : ℤ := ⌊((env.now g.nowCalls - g.startTime : ℤ) : ℚ) / 1000⌋
  let g := { g with nowCalls := g.nowCalls + 1 }
  let g := recordLevelCompletion g g.deaths elapsed
  let g := unlockNextLevel g
  let g := playSound g 1000 (1 / 2) "sine"
  if g.level ≥ g.maxLevel then showVictoryScreen g
  else
    let g := { g with
      level := g.level + 1, deaths := 0,
      startTime := env.now g.nowCalls, nowCalls := g.nowCalls + 1, time := 0 }
    let g := if g.livesEnabled then { g with currentLives := g.maxLives } else g
    initLevel env g

def checkWinCondition (env : Env) (g : Game) : Game :=
  let allCollected := g.collectibles.all (fun c => c.collected)
  if allCollected && isColliding g.player.rect g.goal then nextLevel env g else g

/-! ## The frame update (lines 870-890 and 979-1001) -/

def updateEffects (env : Env) (g : Game) : Game :=
  let g := { g with screenShake := g.screenShake * (9 / 10) }
  let g := { g with flashEffect := g.flashEffect * (95 / 100) }
  let g := { g with player := { g.player with
    glowIntensity := env.sin (g.time * 8) * (3 / 10) + 7 / 10 } }
  { g with player := { g.player with bounceOffset := env.sin (g.time * 12) * 2 } }

/-- The `filter` callback moves and shrinks each particle, then keeps it when it
is still alive and large enough; after that one `Math.random()` call decides
whether a particle is added at the player centre. -/
def updateParticles (env : Env) (g : Game) : Game :=
  if !g.particlesEnabled then g
  else
    let moved := g.particles.map (fun particle => { particle with
      x := particle.x + particle.vx
      y := particle.y + particle.vy
      life := particle.life - 2 / 100
      size := particle.size * (98 / 100) })
    let kept := moved.filter
      (fun particle => decide (particle.life > 0) && decide (particle.size > 1 / 2))
    let g : Game := { g with particles := kept }
    let r : ℚ := g.rnd env 0
    let g : Game := g.consume 1
    if r < 3 / 10 then
      { g with
        particles := g.particles ++ [{
          x := g.player.x + g.player.width / 2
          y := g.player.y + g.player.height / 2
          vx := (g.rnd env 0 - 1 / 2) * 2
          vy := (g.rnd env 1 - 1 / 2) * 2
          size := g.rnd env 2 * 4 + 2
          life := 1
          color := { hue := 120, lightness := 50 + g.rnd env 3 * 50 } }]
        randCalls := g.randCalls + 4 }
    else g

/-- One frame of the simulation.  The closing `updateUI()` call only copies
`level`, `deaths`, `time` and the lives to the page and is left out. -/
def update (env : Env) (g : Game) : Game :=
  if g.gameOver || g.paused then g
  else
    let deltaTime := 16 / 1000 * g.gameSpeedMultiplier
    let g := { g with time := g.time + deltaTime }
    let g := updateEffects env g
    let g := updatePlayer env g
    let g := updateObstacles env g
    let g := updateParticles env g
    let g := checkCollisions env g
    checkWinCondition env g

/-! ## Level selection (lines 1480-1488) and stored progress (lines 276-288) -/

/-- The closing `closeLevelMenu()` call only hides the menu on the page and is
left out. -/
def selectLevel (env : Env) (g : Game) (levelNumber : ℤ) : Game :=
  if levelNumber ≤ g.unlockedLevels then
    let g := { g with level := levelNumber }
    let g := { g with deaths := 0 }
    let g := { g with startTime := env.now g.nowCalls, nowCalls := g.nowCalls + 1 }
    initLevel env g
  else g

/-- What the two loaders read from the page: the storage and two functions of
the JavaScript runtime.  The type `σ` is that of parsed JSON values. -/
structure Browser (σ : Type) where
  /-- The call `localStorage.getItem(key)`; `none` stands for `null`. -/
  getItem : String → Option String
  /-- The function `parseInt`; `none` stands for `NaN`. -/
  parseInt : String → Option ℤ
  /-- The function `JSON.parse`; an error stands for the thrown `SyntaxError`. -/
  jsonParse : String → Except String σ
  /-- The object literal `{}`. -/
  emptyObject : σ

/-- The test `saved ? a : b`: `null` and the empty string are falsy. -/
def truthy (saved : Option String) : Bool :=
  match saved with
  | none => false
  | some text => text != ""

/-- Lines 276-279; the result is a JavaScript number, `none` standing for
`NaN`. -/
def loadProgress {σ : Type} (b : Browser σ) : Option ℤ :=
  let saved := b.getItem "spaceGameProgress"
  if truthy saved then b.parseInt (saved.getD "") else some 1

/-- Lines 285-288; an error result stands for an exception leaving the
function. -/
def loadLevelStats {σ : Type} (b : Browser σ) : Except String σ :=
  let saved := b.getItem "spaceGameLevelStats"
  if truthy saved then b.jsonParse (saved.getD "") else .ok b.emptyObject

/-! ## Predicates used in the statements -/

/-- Strict overlap of two axis-aligned rectangles, as the specification writes
it. -/
def Overlaps (a b : Rect) : Prop :=
  a.x < b.x + b.width ∧ a.x + a.width > b.x ∧ a.y < b.y + b.height ∧ a.y + a.height > b.y

instance (a b : Rect) : Decidable (Overlaps a b) := by
  unfold Overlaps; infer_instance

/-- The block that adds the contribution `c` to the accumulators; it yields no
finite pair when the contribution is not finite. -/
def shift (c : Option (ℚ × ℚ)) (acc : ℚ × ℚ) : Option (ℚ × ℚ) :=
  c.map (fun d => (acc.1 + d.1, acc.2 + d.2))

/-- Apply blocks to the accumulators one after the other, in list order. -/
def applyBlocks (blocks : List (ℚ × ℚ → Option (ℚ × ℚ))) (start : Option (ℚ × ℚ)) :
    Option (ℚ × ℚ) :=
  blocks.foldl (fun acc block => acc.bind block) start

/-- The part of `playerDied` before the lives test (lines 1052-1073): the death
count, the sound, the screen effects and the burst of particles. -/
def deathEffects (env : Env) (g : Game) : Game :=
  let g := { g with deaths := g.deaths + 1 }
  let g := playSound g 200 (1 / 2) "sawtooth"
  let g := if g.screenShakeEnabled then { g with screenShake := 15 } else g
  let g := { g with flashEffect := 1 }
  if g.particlesEnabled then
    let particleCount := Int.toNat ⌊30 * g.qualityMultiplier⌋
    forLoop particleCount (fun _ s =>
      { s with
        particles := s.particles ++ [{
          x := s.player.x + s.player.width / 2
          y := s.player.y + s.player.height / 2
          vx := (s.rnd env 0 - 1 / 2) * 12
          vy := (s.rnd env 1 - 1 / 2) * 12
          size := s.rnd env 2 * 8 + 4
          life := 1
          color := { hue := s.rnd env 3 * 60, lightness := 50 + s.rnd env 4 * 50 } }]
        randCalls := s.randCalls + 5 }) g
  else g

/-- An obstacle is orbital when it has an `angle`. -/
def Obstacle.isOrbital : Obstacle → Bool
  | .orbital _ => true
  | .linear _ => false

/-- An obstacle is linear when it has no `angle`. -/
def Obstacle.isLinear : Obstacle → Bool
  | .orbital _ => false
  | .linear _ => true

/-- The part of `nextLevel` before the test on `maxLevel` (lines 1097-1101): the
completion is recorded, the next level unlocked and the sound played. -/
def levelCompleted (env : Env) (g : Game) : Game :=
  let elapsed : ℤ := ⌊((env.now g.nowCalls - g.startTime : ℤ) : ℚ) / 1000⌋
  let g := { g with nowCalls := g.nowCalls + 1 }
  let g := recordLevelCompletion g g.deaths elapsed
  let g := unlockNextLevel g
  playSound g 1000 (1 / 2) "sine"

/-- An orbital obstacle without `centerX` and `centerY`; every linear obstacle
counts as such. -/
def Obstacle.centreUnset : Obstacle → Prop
  | .orbital o => o.centerX = none ∧ o.centerY = none
  | .linear _ => True

/-! ## A concrete environment and game for the examples -/

/-- An environment that is exact at the arguments the examples use
(`Math.sqrt(100) = 10`, `Math.sqrt(0) = 0`, `Math.sin(0) = 0`,
`Math.cos(0) = 1`); the sensitivity setting is absent. -/
def demoEnv : Env :=
  { sqrt := fun q => if q = 100 then 10 else 0
    sin := fun _ => 0
    cos := fun q => if q = 0 then 1 else 0
    pi := 355 / 113
    random := fun _ => 1 / 2
    now := fun n => 1000 * n
    gesturesSensitivity := none }

/-- The state the constructor sets up (a 640 by 600 canvas, nothing stored yet),
with the player at (45, 300), one obstacle and one collectible that the player
touches, and only the `d` key pressed. -/
def demoGame : Game :=
  { width := 640, height := 600, level := 1, deaths := 0, startTime := 0
    gameOver := false, paused := false, time := 0, maxLevel := 10, unlockedLevels := 1
    levelStats := fun _ => none
    particles := [], screenShake := 0, flashEffect := 0
    player := { x := 45, y := 300, width := 22, height := 22, speed := 7,
                glowIntensity := 0, bounceOffset := 0 }
    particlesEnabled := true, screenShakeEnabled := true, keyboardEnabled := true
    livesEnabled := false, maxLives := 3, currentLives := 3
    gameSpeedMultiplier := 1, qualityMultiplier := 1
    difficultyMultiplier := { speed := 1, obstacles := 1, collectibles := 1 }
    keys := fun k => k == "d"
    fingerTarget := none, touchTarget := none
    obstacles := [.linear { x := 180, y := 150, width := 18, height := 18,
                            speedX := 7 / 2, speedY := 2 }]
    collectibles := [{ x := 60, y := 310, width := 9, height := 9, collected := false },
                     { x := 500, y := 350, width := 9, height := 9, collected := false }]
    goal := { x := 560, y := 260, width := 60, height := 80 }
    randCalls := 0, nowCalls := 0, log := [] }

/-- The game `demoGame` with a pointing target at (62, 319), which is 10 away
from the player centre (56, 311). -/
def demoPointing : Game :=
  { demoGame with fingerTarget := some ⟨62, 319⟩ }

/-- The game `demoGame` with a single orbital obstacle that has no centre
set. -/
def demoOrbit : Game :=
  { demoGame with obstacles := [.orbital
      { x := 400, y := 200, width := 14, height := 14, angle := 0, radius := 60, speed := 0,
        centerX := none, centerY := none }] }

/-- The game `demoGame` in lives mode, with its first collectible already
collected. -/
def demoLives : Game :=
  { demoGame with
    livesEnabled := true
    collectibles := [{ x := 60, y := 310, width := 9, height := 9, collected := true },
                     { x := 500, y := 350, width := 9, height := 9, collected := false }] }

/-- The game `demoGame` with a stored record for level 1: 5 deaths in 30
seconds. -/
def demoStored : Game :=
  { demoGame with levelStats := fun l => if l = 1 then some ⟨5, 30, true⟩ else none }

/-- The state of a linear obstacle on the x-axis between two bounces: it has
width `w` and speed `|v|`, and either it is strictly inside `(0, W - w)` or it
has just bounced and its next position is. -/
def BounceInv (W m v w : ℚ) (ob : Obstacle) : Prop :=
  ∃ l : Linear, ob = .linear l ∧ l.width = w ∧ |l.speedX| = |v| ∧
    ((0 < l.x ∧ l.x < W - w) ∨ (0 < l.x + l.speedX * m ∧ l.x + l.speedX * m < W - w))

/-- The first `forEach` of `checkCollisions` (lines 1004-1008), run over the
obstacles `os` from the game `g`. -/
def obstaclePass (env : Env) (os : List Obstacle) (g : Game) : Game :=
  os.foldl
    (fun s obstacle => if isColliding s.player.rect obstacle.rect then playerDied env s else s) g

/-- The game `demoGame` in lives mode, particles off, with one life left and two
obstacles that both overlap the player at (45, 300). -/
def demoLastLife : Game :=
  { demoGame with
    livesEnabled := true
    currentLives := 1
    particlesEnabled := false
    obstacles := [.linear { x := 40, y := 295, width := 18, height := 18,
                            speedX := 3, speedY := 2 },
                  .linear { x := 50, y := 305, width := 18, height := 18,
                            speedX := -3, speedY := 2 }] }

/-- The game `demoGame` (lives mode off) with an obstacle that overlaps the
player at (45, 300) and a collectible that overlaps the player there but not
at the spawn point (50, 300). -/
def demoHit : Game :=
  { demoGame with
    obstacles := [.linear { x := 40, y := 295, width := 18, height := 18,
                            speedX := 3, speedY := 2 }]
    collectibles := [{ x := 40, y := 310, width := 9, height := 9, collected := false }] }

/-- The game `demoGame` on the last level (10 of 10), with no key pressed,
particles off, the only collectible collected and the player at (570, 290),
inside the goal. -/
def demoVictory : Game :=
  { demoGame with
    level := 10
    unlockedLevels := 10
    particlesEnabled := false
    keys := fun _ => false
    player := { x := 570, y := 290, width := 22, height := 22, speed := 7,
                glowIntensity := 0, bounceOffset := 0 }
    collectibles := [{ x := 60, y := 310, width := 9, height := 9, collected := true }] }

/-- A page whose storage holds `abc` under the progress key and `{` under the
stats key; `parseInt` knows the numerals 1 to 3 and gives `NaN` otherwise,
`JSON.parse` accepts only the text of an empty object. -/
def demoCorrupt : Browser (List (ℤ × LevelStat)) :=
  { getItem := fun key =>
      if key = "spaceGameProgress" then some "abc"
      else if key = "spaceGameLevelStats" then some "\x7b"
      else none
    parseInt := fun text =>
      if text = "1" then some 1 else if text = "2" then some 2
      else if text = "3" then some 3 else none
    jsonParse := fun text =>
      if text = "\x7b\x7d" then .ok [] else .error "SyntaxError"
    emptyObject := [] }

/-! ## Auxiliary lemmas -/

theorem isColliding_eq_true_iff (a b : Rect) : isColliding a b = true ↔ Overlaps a b := by
  simp [isColliding, Overlaps, and_assoc]

theorem isColliding_eq_false_iff (a b : Rect) : isColliding a b = false ↔ ¬ Overlaps a b := by
  rw [← isColliding_eq_true_iff]; simp

/-- A quantity that every iteration of a loop body keeps is kept by the loop. -/
theorem forLoop_inv {α : Type} (f : Game → α) (n : ℕ) (body : ℕ → Game → Game)
    (h : ∀ i s, f (body i s) = f s) (g : Game) : f (forLoop n body g) = f g := by
  unfold forLoop
  generalize List.range n = l
  induction l generalizing g with
  | nil => rfl
  | cons i l ih => rw [List.foldl_cons, ih, h]

theorem createLevel1_nowCalls (g : Game) : (createLevel1 g).nowCalls = g.nowCalls := by
  simp only [createLevel1, Game.pushCollectible, Game.pushObstacle, Game.consume]
  repeat' first
    | refine (forLoop_inv Game.nowCalls _ _ (fun _ _ => ?_) _).trans ?_
    | with_reducible rfl

theorem createLevel2_nowCalls (env : Env) (g : Game) :
    (createLevel2 env g).nowCalls = g.nowCalls := by
  simp only [createLevel2, Game.pushCollectible, Game.pushObstacle, Game.consume]
  repeat' first
    | refine (forLoop_inv Game.nowCalls _ _ (fun _ _ => ?_) _).trans ?_
    | with_reducible rfl

theorem createLevel3_nowCalls (env : Env) (g : Game) :
    (createLevel3 env g).nowCalls = g.nowCalls := by
  simp only [createLevel3, Game.pushCollectible, Game.pushObstacle, Game.consume]
  repeat' first
    | refine (forLoop_inv Game.nowCalls _ _ (fun _ _ => ?_) _).trans ?_
    | with_reducible rfl

theorem createLevel4_nowCalls (env : Env) (g : Game) :
    (createLevel4 env g).nowCalls = g.nowCalls := by
  simp only [createLevel4, Game.pushCollectible, Game.pushObstacle, Game.consume]
  repeat' first
    | refine (forLoop_inv Game.nowCalls _ _ (fun _ _ => ?_) _).trans ?_
    | with_reducible rfl

theorem createLevel5_nowCalls (env : Env) (g : Game) :
    (createLevel5 env g).nowCalls = g.nowCalls := by
  simp only [createLevel5, Game.pushCollectible, Game.pushObstacle, Game.consume]
  repeat' first
    | refine (forLoop_inv Game.nowCalls _ _ (fun _ _ => ?_) _).trans ?_
    | with_reducible rfl

theorem createRandomLevel_nowCalls (env : Env) (g : Game) :
    (createRandomLevel env g).nowCalls = g.nowCalls := by
  simp only [createRandomLevel, Game.pushCollectible, Game.pushObstacle, Game.consume]
  repeat' first
    | refine (forLoop_inv Game.nowCalls _ _ (fun _ _ => ?_) _).trans ?_
    | with_reducible rfl

theorem initLevel_nowCalls (env : Env) (g : Game) :
    (initLevel env g).nowCalls = g.nowCalls := by
  simp only [initLevel]
  split_ifs <;>
    simp only [createLevel1_nowCalls, createLevel2_nowCalls, createLevel3_nowCalls,
      createLevel4_nowCalls, createLevel5_nowCalls, createRandomLevel_nowCalls]

theorem recordLevelCompletion_nowCalls (g : Game) (deaths time : ℤ) :
    (recordLevelCompletion g deaths time).nowCalls = g.nowCalls := by
  unfold recordLevelCompletion
  dsimp only
  split_ifs <;> rfl

theorem unlockNextLevel_nowCalls (g : Game) : (unlockNextLevel g).nowCalls = g.nowCalls := by
  unfold unlockNextLevel
  split_ifs <;> rfl

/-- Every call of `nextLevel` reads the clock at least once. -/
theorem nextLevel_nowCalls_lt (env : Env) (g : Game) :
    g.nowCalls < (nextLevel env g).nowCalls := by
  unfold nextLevel
  dsimp only
  split_ifs <;>
    simp only [showVictoryScreen, playSound, Game.emit, initLevel_nowCalls,
      unlockNextLevel_nowCalls, recordLevelCompletion_nowCalls] <;>
    omega

theorem nextLevel_ne (env : Env) (g : Game) : nextLevel env g ≠ g := by
  intro h
  have := nextLevel_nowCalls_lt env g
  rw [h] at this
  exact lt_irrefl _ this

theorem all_collected_iff (cs : List Collectible) :
    (cs.all (fun c => c.collected) = true) ↔ ∀ c ∈ cs, c.collected = true := by
  simp [List.all_eq_true]

/-- `collectItem` only touches the particles, the random-call count and the
log. -/
theorem collectItem_inv {α : Type} (f : Game → α)
    (hf : ∀ (s : Game) ps k lg, f { s with particles := ps, randCalls := k, log := lg } = f s)
    (env : Env) (g : Game) : f (collectItem env g) = f g := by
  unfold collectItem playSound Game.emit
  dsimp only
  split_ifs
  · refine (forLoop_inv f _ _ (fun _ s => ?_) _).trans ?_
    · exact hf s _ _ s.log
    · exact hf g g.particles g.randCalls _
  · exact hf g g.particles g.randCalls _

theorem collectLoop_spec (env : Env) (cs : List Collectible) (s : Game) :
    (collectLoop env cs s).1 = cs.map (fun c =>
        if c.collected = false ∧ Overlaps s.player.rect c.rect
        then { c with collected := true } else c) ∧
      (collectLoop env cs s).2.player = s.player ∧
      (collectLoop env cs s).2.deaths = s.deaths ∧
      (collectLoop env cs s).2.currentLives = s.currentLives ∧
      (collectLoop env cs s).2.gameOver = s.gameOver := by
  induction cs generalizing s with
  | nil => simp [collectLoop]
  | cons c rest ih =>
    unfold collectLoop
    by_cases h : (!c.collected && isColliding s.player.rect c.rect) = true
    · rw [if_pos h]
      have hp : (collectItem env s).player = s.player :=
        collectItem_inv Game.player (fun _ _ _ _ => rfl) env s
      obtain ⟨h1, h2, h3, h4, h5⟩ := ih (collectItem env s)
      simp only [Bool.and_eq_true, Bool.not_eq_true', isColliding_eq_true_iff] at h
      refine ⟨?_, ?_, ?_, ?_, ?_⟩
      · simp only [List.map_cons, h1, hp]
        rw [if_pos h]
      · rw [h2, hp]
      · rw [h3]; exact collectItem_inv Game.deaths (fun _ _ _ _ => rfl) env s
      · rw [h4]; exact collectItem_inv Game.currentLives (fun _ _ _ _ => rfl) env s
      · rw [h5]; exact collectItem_inv Game.gameOver (fun _ _ _ _ => rfl) env s
    · rw [if_neg h]
      obtain ⟨h1, h2, h3, h4, h5⟩ := ih s
      simp only [Bool.and_eq_true, Bool.not_eq_true', isColliding_eq_true_iff] at h
      refine ⟨?_, h2, h3, h4, h5⟩
      simp only [List.map_cons, h1]
      rw [if_neg h]

/-- The obstacle pass does nothing when no obstacle overlaps the player. -/
theorem obstaclePass_of_no_hit (env : Env) (os : List Obstacle) (g : Game)
    (h : ∀ o ∈ os, ¬ Overlaps g.player.rect o.rect) :
    os.foldl (fun s obstacle =>
      if isColliding s.player.rect obstacle.rect then playerDied env s else s) g = g := by
  induction os with
  | nil => rfl
  | cons o rest ih =>
    have ho : isColliding g.player.rect o.rect = false :=
      (isColliding_eq_false_iff _ _).2 (h o (List.mem_cons_self _ _))
    rw [List.foldl_cons, ho]
    exact ih (fun o' ho' => h o' (List.mem_cons_of_mem _ ho'))

/-- The bounds test of `updatePlayer`, once the proposal is known. -/
theorem updatePlayer_of_some (env : Env) (g : Game) (px py : ℚ)
    (h : proposedPosition env g = some (px, py)) :
    updatePlayer env g = { g with player := { g.player with
      x := if 0 ≤ px ∧ px ≤ g.width - g.player.width then px else g.player.x
      y := if 0 ≤ py ∧ py ≤ g.height - g.player.height then py else g.player.y } } := by
  unfold updatePlayer
  rw [h]
  dsimp only
  by_cases hx : 0 ≤ px ∧ px ≤ g.width - g.player.width
  · simp only [if_pos hx]
    by_cases hy : 0 ≤ py ∧ py ≤ g.height - g.player.height
    · simp only [if_pos hy]
    · simp only [if_neg hy]
  · simp only [if_neg hx]
    by_cases hy : 0 ≤ py ∧ py ≤ g.height - g.player.height
    · simp only [if_pos hy]
    · simp only [if_neg hy]

theorem pointingBlock_eq_shift (env : Env) (g : Game) (target : Target) (s t : ℚ)
    (acc : ℚ × ℚ) :
    pointingBlock env g target s t acc = shift (pointingBlock env g target s t (0, 0)) acc := by
  unfold pointingBlock shift
  dsimp only
  split_ifs <;> simp

theorem gestureBlock_eq_shift (env : Env) (g : Game) (acc : ℚ × ℚ) :
    gestureBlock env g acc = shift (gestureBlock env g (0, 0)) acc := by
  unfold gestureBlock
  cases g.fingerTarget with
  | none => simp [shift]
  | some t => exact pointingBlock_eq_shift env g t _ _ acc

theorem touchBlock_eq_shift (env : Env) (g : Game) (acc : ℚ × ℚ) :
    touchBlock env g acc = shift (touchBlock env g (0, 0)) acc := by
  unfold touchBlock
  cases g.touchTarget with
  | none => simp [shift]
  | some t => exact pointingBlock_eq_shift env g t _ _ acc

theorem keyboardBlock_eq_shift (g : Game) (acc : ℚ × ℚ) :
    some (keyboardBlock g acc) = shift (some (keyboardBlock g (0, 0))) acc := by
  unfold keyboardBlock shift
  split_ifs <;> simp [sub_eq_add_neg, add_assoc]

theorem shift_comm (c1 c2 : Option (ℚ × ℚ)) (a : Option (ℚ × ℚ)) :
    (a.bind (shift c1)).bind (shift c2) = (a.bind (shift c2)).bind (shift c1) := by
  cases a <;> cases c1 <;> cases c2 <;> simp [shift, add_right_comm]

/-- Blocks that add a fixed contribution can be applied in any order. -/
theorem applyBlocks_perm {l l' : List (ℚ × ℚ → Option (ℚ × ℚ))} (hp : l.Perm l')
    (hl : ∀ b ∈ l, ∃ c, b = shift c) (start : Option (ℚ × ℚ)) :
    applyBlocks l start = applyBlocks l' start := by
  induction hp generalizing start with
  | nil => rfl
  | cons x _ ih =>
    simp only [applyBlocks, List.foldl_cons]
    exact ih (fun b hb => hl b (List.mem_cons_of_mem _ hb)) _
  | swap x y l =>
    obtain ⟨cx, rfl⟩ := hl x (by simp)
    obtain ⟨cy, rfl⟩ := hl y (by simp)
    simp only [applyBlocks, List.foldl_cons]
    rw [shift_comm]
  | trans h1 _ ih1 ih2 =>
    rw [ih1 hl, ih2 (fun b hb => hl b (h1.mem_iff.2 hb))]

/-- The callback of `updateObstacles` reads only the arena size and the two
multipliers of the game. -/
theorem updateObstacle_congr (env : Env) (g1 g2 : Game) (hw : g1.width = g2.width)
    (hh : g1.height = g2.height) (hs : g1.gameSpeedMultiplier = g2.gameSpeedMultiplier)
    (hd : g1.difficultyMultiplier = g2.difficultyMultiplier) :
    updateObstacle env g1 = updateObstacle env g2 := by
  funext o
  cases o <;> simp only [updateObstacle, hw, hh, hs, hd]

theorem updateObstacles_iterate (env : Env) (g : Game) (n : ℕ) :
    (updateObstacles env)^[n] g =
      { g with obstacles := g.obstacles.map (updateObstacle env g)^[n] } := by
  induction n with
  | zero => simp
  | succ n ih =>
    rw [Function.iterate_succ_apply', ih]
    simp only [updateObstacles, List.map_map]
    congr 2
    funext o
    simp only [Function.comp_apply, Function.iterate_succ_apply']
    exact congrFun (updateObstacle_congr env _ g rfl rfl rfl rfl) _

/-- A linear obstacle that stays strictly inside the arena for `n` ticks moves
in a straight line. -/
theorem updateObstacle_iterate_linear (env : Env) (g : Game) (o : Linear) (n : ℕ)
    (h : ∀ k : ℕ, 1 ≤ k → k ≤ n →
      (0 < o.x + k * (o.speedX * (g.gameSpeedMultiplier * g.difficultyMultiplier.speed)) ∧
        o.x + k * (o.speedX * (g.gameSpeedMultiplier * g.difficultyMultiplier.speed))
          < g.width - o.width) ∧
      (0 < o.y + k * (o.speedY * (g.gameSpeedMultiplier * g.difficultyMultiplier.speed)) ∧
        o.y + k * (o.speedY * (g.gameSpeedMultiplier * g.difficultyMultiplier.speed))
          < g.height - o.height)) :
    (updateObstacle env g)^[n] (.linear o) = .linear { o with
      x := o.x + n * (o.speedX * (g.gameSpeedMultiplier * g.difficultyMultiplier.speed))
      y := o.y + n * (o.speedY * (g.gameSpeedMultiplier * g.difficultyMultiplier.speed)) } := by
  induction n with
  | zero => simp
  | succ n ih =>
    rw [Function.iterate_succ_apply', ih (fun k h1 h2 => h k h1 (Nat.le_succ_of_le h2))]
    obtain ⟨⟨hx0, hx1⟩, ⟨hy0, hy1⟩⟩ := h (n + 1) (Nat.le_add_left 1 n) le_rfl
    have ex : o.x + (n : ℚ) * (o.speedX * (g.gameSpeedMultiplier * g.difficultyMultiplier.speed))
        + o.speedX * (g.gameSpeedMultiplier * g.difficultyMultiplier.speed)
        = o.x + ((n + 1 : ℕ) : ℚ)
          * (o.speedX * (g.gameSpeedMultiplier * g.difficultyMultiplier.speed)) := by
      push_cast; ring
    have ey : o.y + (n : ℚ) * (o.speedY * (g.gameSpeedMultiplier * g.difficultyMultiplier.speed))
        + o.speedY * (g.gameSpeedMultiplier * g.difficultyMultiplier.speed)
        = o.y + ((n + 1 : ℕ) : ℚ)
          * (o.speedY * (g.gameSpeedMultiplier * g.difficultyMultiplier.speed)) := by
      push_cast; ring
    simp only [updateObstacle, ex, ey]
    rw [if_neg (by rw [not_or, not_le, not_le]; exact ⟨hx0, hx1⟩),
      if_neg (by rw [not_or, not_le, not_le]; exact ⟨hy0, hy1⟩)]

/-- The function `playerDied` is `deathEffects` followed by the lives test. -/
theorem playerDied_eq (env : Env) (g : Game) :
    playerDied env g =
      if (deathEffects env g).livesEnabled then
        if (deathEffects env g).currentLives - 1 > 0 then
          ({ deathEffects env g with
            currentLives := (deathEffects env g).currentLives - 1
            player := { (deathEffects env g).player with x := 50, y := 300 } } : Game).emit
            (.livesLeft ((deathEffects env g).currentLives - 1))
        else
          ({ deathEffects env g with
            currentLives := (deathEffects env g).currentLives - 1
            gameOver := true } : Game).emit .gameOverScreen
      else
        { deathEffects env g with
          player := { (deathEffects env g).player with x := 50, y := 300 }
          collectibles := (deathEffects env g).collectibles.map
            (fun c => { c with collected := false }) } := rfl

/-- Apart from the death count, `deathEffects` only touches the screen effects,
the particles, the random-call count and the log. -/
theorem deathEffects_inv {α : Type} (f : Game → α)
    (hf : ∀ (s : Game) d ss fe ps k lg, f { s with
      deaths := d, screenShake := ss, flashEffect := fe, particles := ps, randCalls := k,
      log := lg } = f s)
    (env : Env) (g : Game) : f (deathEffects env g) = f g := by
  unfold deathEffects playSound Game.emit
  dsimp only
  split_ifs
  · refine (forLoop_inv f _ _ (fun _ s => ?_) _).trans ?_
    · exact hf s s.deaths s.screenShake s.flashEffect _ _ s.log
    · exact hf g _ _ _ g.particles g.randCalls _
  · exact hf g _ _ _ g.particles g.randCalls _
  · refine (forLoop_inv f _ _ (fun _ s => ?_) _).trans ?_
    · exact hf s s.deaths s.screenShake s.flashEffect _ _ s.log
    · exact hf g _ _ _ g.particles g.randCalls _
  · exact hf g _ _ _ g.particles g.randCalls _

theorem deathEffects_deaths (env : Env) (g : Game) :
    (deathEffects env g).deaths = g.deaths + 1 := by
  unfold deathEffects playSound Game.emit
  dsimp only
  split_ifs
  · refine (forLoop_inv Game.deaths _ _ (fun _ _ => ?_) _).trans ?_ <;> rfl
  · rfl
  · refine (forLoop_inv Game.deaths _ _ (fun _ _ => ?_) _).trans ?_ <;> rfl
  · rfl

theorem playerDied_livesEnabled (env : Env) (g : Game) :
    (playerDied env g).livesEnabled = g.livesEnabled := by
  rw [playerDied_eq]
  split_ifs <;>
    exact deathEffects_inv Game.livesEnabled (fun _ _ _ _ _ _ _ => rfl) env g

/-- The effect of `playerDied` in lives mode on the fields the claims name. -/
theorem playerDied_lives_on_aux (env : Env) (g : Game) (h : g.livesEnabled = true) :
    (playerDied env g).currentLives = g.currentLives - 1 ∧
    (playerDied env g).deaths = g.deaths + 1 ∧
    (playerDied env g).collectibles = g.collectibles ∧
    (0 < g.currentLives - 1 →
      (playerDied env g).player = { g.player with x := 50, y := 300 } ∧
      (playerDied env g).gameOver = g.gameOver) ∧
    (g.currentLives - 1 ≤ 0 →
      (playerDied env g).gameOver = true ∧ (playerDied env g).player = g.player) := by
  have hl : (deathEffects env g).livesEnabled = true :=
    (deathEffects_inv Game.livesEnabled (fun _ _ _ _ _ _ _ => rfl) env g).trans h
  have hc : (deathEffects env g).collectibles = g.collectibles :=
    deathEffects_inv Game.collectibles (fun _ _ _ _ _ _ _ => rfl) env g
  have hv : (deathEffects env g).currentLives = g.currentLives :=
    deathEffects_inv Game.currentLives (fun _ _ _ _ _ _ _ => rfl) env g
  have hp : (deathEffects env g).player = g.player :=
    deathEffects_inv Game.player (fun _ _ _ _ _ _ _ => rfl) env g
  have hg : (deathEffects env g).gameOver = g.gameOver :=
    deathEffects_inv Game.gameOver (fun _ _ _ _ _ _ _ => rfl) env g
  rw [playerDied_eq, hl, hv]
  simp only [if_true]
  by_cases hpos : g.currentLives - 1 > 0
  · rw [if_pos hpos]
    refine ⟨rfl, deathEffects_deaths env g, hc, fun _ => ⟨?_, hg⟩, fun h0 => ?_⟩
    · simp only [Game.emit, hp]
    · exact absurd hpos (not_lt.2 h0)
  · rw [if_neg hpos]
    refine ⟨rfl, deathEffects_deaths env g, hc, fun h0 => absurd h0 hpos, fun _ => ⟨rfl, hp⟩⟩

/-- The watermark after `unlockNextLevel`. -/
theorem unlockNextLevel_unlockedLevels (g : Game) :
    (unlockNextLevel g).unlockedLevels =
      if g.level ≥ g.unlockedLevels ∧ g.level < g.maxLevel then g.level + 1
      else g.unlockedLevels := by
  unfold unlockNextLevel
  split_ifs <;> rfl

theorem forLoop_zero (body : ℕ → Game → Game) (g : Game) : forLoop 0 body g = g := rfl

theorem forLoop_succ (n : ℕ) (body : ℕ → Game → Game) (g : Game) :
    forLoop (n + 1) body g = body n (forLoop n body g) := by
  simp [forLoop, List.range_succ, List.foldl_append]

/-- A loop that pushes one obstacle per iteration appends the list of those
obstacles. -/
theorem forLoop_pushObstacle (n : ℕ) (f : ℕ → Obstacle) (g : Game) :
    forLoop n (fun i s => s.pushObstacle (f i)) g =
      { g with obstacles := g.obstacles ++ (List.range n).map f } := by
  induction n with
  | zero => simp [forLoop_zero]
  | succ n ih =>
    rw [forLoop_succ, ih]
    simp [Game.pushObstacle, List.range_succ]

theorem forLoop_pushCollectible (n : ℕ) (f : ℕ → Collectible) (g : Game) :
    forLoop n (fun i s => s.pushCollectible (f i)) g =
      { g with collectibles := g.collectibles ++ (List.range n).map f } := by
  induction n with
  | zero => simp [forLoop_zero]
  | succ n ih =>
    rw [forLoop_succ, ih]
    simp [Game.pushCollectible, List.range_succ]

theorem createLevel1_lists (g : Game) :
    (createLevel1 g).obstacles = g.obstacles ++ (List.range 5).map (fun i : ℕ => Obstacle.linear
      { x := 180 + i * 120, y := 150 + i * 60, width := 18, height := 18,
        speedX := 35 / 10 + i * (7 / 10), speedY := 2 + i * (5 / 10) }) ∧
    (createLevel1 g).collectibles = g.collectibles ++
      [{ x := 350, y := 250, width := 9, height := 9, collected := false },
       { x := 500, y := 350, width := 9, height := 9, collected := false }] := by
  refine ⟨?_, ?_⟩ <;> simp [createLevel1, forLoop_pushObstacle, Game.pushCollectible]

theorem createLevel5_lists (env : Env) (g : Game) :
    (createLevel5 env g).obstacles = g.obstacles ++
      ((List.range 6).map (fun i : ℕ => Obstacle.orbital
        { x := 200 + (0 : ℕ) * 400, y := 300, width := 14, height := 14,
          angle := i * env.pi / 3 + (0 : ℕ) * env.pi, radius := 80 + i * 20,
          speed := (6 / 100 + i * (1 / 100)) * 1, centerX := none, centerY := none }) ++
       (List.range 6).map (fun i : ℕ => Obstacle.orbital
        { x := 200 + (1 : ℕ) * 400, y := 300, width := 14, height := 14,
          angle := i * env.pi / 3 + (1 : ℕ) * env.pi, radius := 80 + i * 20,
          speed := (6 / 100 + i * (1 / 100)) * -1, centerX := none, centerY := none }) ++
       (List.range 3).map (fun i : ℕ => Obstacle.linear
        { x := 350 + i * 50, y := 250 + i * 50, width := 18, height := 18,
          speedX := 3 * evenSign i, speedY := 4 * -evenSign i })) ∧
    (createLevel5 env g).collectibles = g.collectibles ++
      (List.range 4).map (fun i : ℕ =>
        ({ x := 150 + i * 150, y := 200 + ((i % 2 : ℕ) : ℚ) * 200, width := 7, height := 7,
           collected := false } : Collectible)) := by
  simp only [createLevel5, forLoop_pushObstacle, forLoop_pushCollectible]
  rw [forLoop_succ 1, forLoop_succ 0, forLoop_zero]
  refine ⟨?_, ?_⟩ <;> simp

theorem createLevel2_lists (env : Env) (g : Game) :
    (createLevel2 env g).obstacles = g.obstacles ++
      ((List.range 7).map (fun i : ℕ => Obstacle.linear
        { x := 140 + i * 90, y := 120 + env.sin (i * (8 / 10)) * 80, width := 16, height := 16,
          speedX := 45 / 10 * evenSign i, speedY := 3 * evenSign i }) ++
       (List.range 2).map (fun i : ℕ => Obstacle.orbital
        { x := 400, y := 200, width := 14, height := 14,
          angle := i * env.pi, radius := 60 + i * 30, speed := 8 / 100 + i * (2 / 100),
          centerX := none, centerY := none })) ∧
    (createLevel2 env g).collectibles = g.collectibles ++
      (List.range 3).map (fun i : ℕ =>
        ({ x := 280 + i * 160, y := 200 + i * 80, width := 8, height := 8,
           collected := false } : Collectible)) := by
  refine ⟨?_, ?_⟩ <;> simp [createLevel2, forLoop_pushObstacle, forLoop_pushCollectible]

theorem createLevel3_lists (env : Env) (g : Game) :
    (createLevel3 env g).obstacles = g.obstacles ++
      ((List.range 6).map (fun i : ℕ => Obstacle.orbital
        { x := 300, y := 300, width := 17, height := 17,
          angle := i * env.pi / 3, radius := 80 + i * 25, speed := 7 / 100 + i * (15 / 1000),
          centerX := none, centerY := none }) ++
       (List.range 3).map (fun i : ℕ => Obstacle.linear
        { x := 150 + i * 200, y := 100 + i * 150, width := 16, height := 16,
          speedX := 5 * evenSign i, speedY := 35 / 10 * evenSign i })) ∧
    (createLevel3 env g).collectibles = g.collectibles ++
      [{ x := 295, y := 295, width := 8, height := 8, collected := false },
       { x := 450, y := 200, width := 8, height := 8, collected := false }] := by
  refine ⟨?_, ?_⟩ <;> simp [createLevel3, forLoop_pushObstacle, Game.pushCollectible]

theorem createLevel4_lists (env : Env) (g : Game) :
    (createLevel4 env g).obstacles = g.obstacles ++
      ((List.range 8).map (fun i : ℕ => Obstacle.orbital
        { x := 400, y := 300, width := 15, height := 15,
          angle := i * env.pi / 4, radius := 100 + i * 15, speed := 5 / 100 + i * (1 / 100),
          centerX := none, centerY := none }) ++
       (List.range 4).map (fun i : ℕ => Obstacle.linear
        { x := 100 + i * 150, y := 100 + i * 100, width := 20, height := 20,
          speedX := 4 * evenSign i, speedY := 3 * -evenSign i })) ∧
    (createLevel4 env g).collectibles = g.collectibles ++
      (List.range 3).map (fun i : ℕ =>
        ({ x := 200 + i * 200, y := 150 + i * 100, width := 8, height := 8,
           collected := false } : Collectible)) := by
  refine ⟨?_, ?_⟩ <;> simp [createLevel4, forLoop_pushObstacle, forLoop_pushCollectible]

/-- A loop that pushes one obstacle per iteration, built from the state and the
random source, appends as many obstacles as it has iterations. -/
theorem forLoop_pushRandomObstacle (n k : ℕ) (F : Game → Obstacle) (g : Game) :
    ∃ l : List Obstacle,
      (forLoop n (fun _ s => (s.pushObstacle (F s)).consume k) g).obstacles = g.obstacles ++ l ∧
      l.length = n ∧ ∀ o ∈ l, ∃ s, o = F s := by
  induction n with
  | zero => exact ⟨[], by simp [forLoop_zero], rfl, by simp⟩
  | succ n ih =>
    obtain ⟨l, h1, h2, h3⟩ := ih
    refine ⟨l ++ [F (forLoop n (fun _ s => (s.pushObstacle (F s)).consume k) g)], ?_, ?_, ?_⟩
    · rw [forLoop_succ]
      show (forLoop n _ g).obstacles ++ [F _] = _
      rw [h1, List.append_assoc]
    · simp [h2]
    · intro o ho
      rcases List.mem_append.1 ho with ho | ho
      · exact h3 o ho
      · exact ⟨_, List.mem_singleton.1 ho⟩

theorem forLoop_pushRandomCollectible (n k : ℕ) (F : Game → Collectible) (g : Game) :
    ∃ l : List Collectible,
      (forLoop n (fun _ s => (s.pushCollectible (F s)).consume k) g).collectibles
        = g.collectibles ++ l ∧
      l.length = n ∧ ∀ c ∈ l, ∃ s, c = F s := by
  induction n with
  | zero => exact ⟨[], by simp [forLoop_zero], rfl, by simp⟩
  | succ n ih =>
    obtain ⟨l, h1, h2, h3⟩ := ih
    refine ⟨l ++ [F (forLoop n (fun _ s => (s.pushCollectible (F s)).consume k) g)], ?_, ?_, ?_⟩
    · rw [forLoop_succ]
      show (forLoop n _ g).collectibles ++ [F _] = _
      rw [h1, List.append_assoc]
    · simp [h2]
    · intro c hc
      rcases List.mem_append.1 hc with hc | hc
      · exact h3 c hc
      · exact ⟨_, List.mem_singleton.1 hc⟩

/-- What `createRandomLevel` appends: two runs of obstacles of the same length,
the first all orbital and the second all linear, and a run of uncollected
collectibles. -/
theorem createRandomLevel_lists (env : Env) (g : Game) :
    ∃ (l1 l2 : List Obstacle) (l3 : List Collectible),
      (createRandomLevel env g).obstacles = g.obstacles ++ l1 ++ l2 ∧
      (createRandomLevel env g).collectibles = g.collectibles ++ l3 ∧
      l1.length = Int.toNat ⌊(8 + (g.level : ℚ) * 2) / 2⌋ ∧
      l2.length = Int.toNat ⌊(8 + (g.level : ℚ) * 2) / 2⌋ ∧
      l3.length = Int.toNat (min 5 (⌊(g.level : ℚ) / 2⌋ + 2)) ∧
      (∀ o ∈ l1, o.isOrbital = true ∧ o.isLinear = false) ∧
      (∀ o ∈ l2, o.isLinear = true ∧ o.isOrbital = false) ∧
      (∀ c ∈ l3, c.collected = false) := by
  obtain ⟨F1, F2, F3, he, hF1, hF2, hF3⟩ : ∃ (F1 F2 : Game → Obstacle) (F3 : Game → Collectible),
      createRandomLevel env g =
        forLoop (Int.toNat (min 5 (⌊((forLoop (Int.toNat ⌊(8 + (g.level : ℚ) * 2) / 2⌋)
            (fun _ s => (s.pushObstacle (F2 s)).consume 6)
            (forLoop (Int.toNat ⌊(8 + (g.level : ℚ) * 2) / 2⌋)
              (fun _ s => (s.pushObstacle (F1 s)).consume 5) g)).level : ℚ) / 2⌋ + 2)))
          (fun _ s => (s.pushCollectible (F3 s)).consume 2)
          (forLoop (Int.toNat ⌊(8 + (g.level : ℚ) * 2) / 2⌋)
            (fun _ s => (s.pushObstacle (F2 s)).consume 6)
            (forLoop (Int.toNat ⌊(8 + (g.level : ℚ) * 2) / 2⌋)
              (fun _ s => (s.pushObstacle (F1 s)).consume 5) g)) ∧
      (∀ s, (F1 s).isOrbital = true ∧ (F1 s).isLinear = false) ∧
      (∀ s, (F2 s).isLinear = true ∧ (F2 s).isOrbital = false) ∧
      (∀ s, (F3 s).collected = false) := by
    refine ⟨_, _, _, rfl, ?_, ?_, ?_⟩
    · intro s; exact ⟨rfl, rfl⟩
    · intro s; exact ⟨rfl, rfl⟩
    · intro s; rfl
  obtain ⟨l1, h1, n1, p1⟩ := forLoop_pushRandomObstacle
    (Int.toNat ⌊(8 + (g.level : ℚ) * 2) / 2⌋) 5 F1 g
  obtain ⟨l2, h2, n2, p2⟩ := forLoop_pushRandomObstacle
    (Int.toNat ⌊(8 + (g.level : ℚ) * 2) / 2⌋) 6 F2
    (forLoop (Int.toNat ⌊(8 + (g.level : ℚ) * 2) / 2⌋)
      (fun _ s => (s.pushObstacle (F1 s)).consume 5) g)
  have hlev : (forLoop (Int.toNat ⌊(8 + (g.level : ℚ) * 2) / 2⌋)
      (fun _ s => (s.pushObstacle (F2 s)).consume 6)
      (forLoop (Int.toNat ⌊(8 + (g.level : ℚ) * 2) / 2⌋)
        (fun _ s => (s.pushObstacle (F1 s)).consume 5) g)).level = g.level := by
    refine (forLoop_inv Game.level _ _ (fun _ _ => ?_) _).trans
      ((forLoop_inv Game.level _ _ (fun _ _ => ?_) _).trans ?_) <;> rfl
  have hcol : (forLoop (Int.toNat ⌊(8 + (g.level : ℚ) * 2) / 2⌋)
      (fun _ s => (s.pushObstacle (F2 s)).consume 6)
      (forLoop (Int.toNat ⌊(8 + (g.level : ℚ) * 2) / 2⌋)
        (fun _ s => (s.pushObstacle (F1 s)).consume 5) g)).collectibles = g.collectibles := by
    refine (forLoop_inv Game.collectibles _ _ (fun _ _ => ?_) _).trans
      ((forLoop_inv Game.collectibles _ _ (fun _ _ => ?_) _).trans ?_) <;> rfl
  rw [hlev] at he
  obtain ⟨l3, h3, n3, p3⟩ := forLoop_pushRandomCollectible
    (Int.toNat (min 5 (⌊(g.level : ℚ) / 2⌋ + 2))) 2 F3
    (forLoop (Int.toNat ⌊(8 + (g.level : ℚ) * 2) / 2⌋)
      (fun _ s => (s.pushObstacle (F2 s)).consume 6)
      (forLoop (Int.toNat ⌊(8 + (g.level : ℚ) * 2) / 2⌋)
        (fun _ s => (s.pushObstacle (F1 s)).consume 5) g))
  refine ⟨l1, l2, l3, ?_, ?_, n1, n2, n3, ?_, ?_, ?_⟩
  · rw [he]
    refine (forLoop_inv Game.obstacles _ _ (fun _ _ => ?_) _).trans ?_
    · rfl
    · rw [h2, h1]
  · rw [he, h3, hcol]
  · intro o ho
    obtain ⟨s, rfl⟩ := p1 o ho
    exact hF1 s
  · intro o ho
    obtain ⟨s, rfl⟩ := p2 o ho
    exact hF2 s
  · intro c hc
    obtain ⟨s, rfl⟩ := p3 c hc
    exact hF3 s

theorem initLevel_level (env : Env) (g : Game) : (initLevel env g).level = g.level := by
  simp only [initLevel]
  split_ifs <;>
    simp only [createLevel1, createLevel2, createLevel3, createLevel4, createLevel5,
      createRandomLevel, Game.pushCollectible, Game.pushObstacle, Game.consume] <;>
    repeat' first
      | refine (forLoop_inv Game.level _ _ (fun _ _ => ?_) _).trans ?_
      | with_reducible rfl

/-- The level generators only touch the two lists and the random-call count. -/
theorem generators_inv {α : Type} (f : Game → α)
    (hf : ∀ (s : Game) os cs k, f { s with obstacles := os, collectibles := cs, randCalls := k }
      = f s) (env : Env) (g : Game) :
    f (createLevel1 g) = f g ∧ f (createLevel2 env g) = f g ∧ f (createLevel3 env g) = f g ∧
    f (createLevel4 env g) = f g ∧ f (createLevel5 env g) = f g ∧
    f (createRandomLevel env g) = f g := by
  refine ⟨?_, ?_, ?_, ?_, ?_, ?_⟩ <;>
    simp only [createLevel1, createLevel2, createLevel3, createLevel4, createLevel5,
      createRandomLevel, Game.pushCollectible, Game.pushObstacle, Game.consume] <;>
    repeat' first
      | with_reducible rfl
      | refine (forLoop_inv f _ _ (fun _ _ => ?_) _).trans ?_
      | refine (hf _ _ _ _).trans ?_

/-- The function `initLevel` keeps whatever the generators keep, computed on the
game with the player at the spawn point; only the goal is written after. -/
theorem initLevel_inv {α : Type} (f : Game → α)
    (hf : ∀ (s : Game) os cs k, f { s with obstacles := os, collectibles := cs, randCalls := k }
      = f s)
    (hg : ∀ (s : Game) r, f { s with goal := r } = f s) (env : Env) (g : Game) :
    f (initLevel env g) = f { g with player := { g.player with x := 50, y := 300 } } := by
  obtain ⟨h1, h2, h3, h4, h5, h6⟩ := generators_inv f hf env
    { g with obstacles := [], collectibles := [], player := { g.player with x := 50, y := 300 } }
  have h0 := hf { g with player := { g.player with x := 50, y := 300 } } [] [] g.randCalls
  unfold initLevel
  dsimp only
  rw [hg]
  split_ifs
  · exact h1.trans h0
  · exact h2.trans h0
  · exact h3.trans h0
  · exact h4.trans h0
  · exact h5.trans h0
  · exact h6.trans h0

/-- The function `nextLevel` is `levelCompleted` followed by the test on
`maxLevel`. -/
theorem nextLevel_eq (env : Env) (g : Game) :
    nextLevel env g =
      if (levelCompleted env g).level ≥ (levelCompleted env g).maxLevel then
        showVictoryScreen (levelCompleted env g)
      else
        initLevel env
          (if (levelCompleted env g).livesEnabled then
            { levelCompleted env g with
              level := (levelCompleted env g).level + 1, deaths := 0,
              startTime := env.now (levelCompleted env g).nowCalls,
              nowCalls := (levelCompleted env g).nowCalls + 1, time := 0,
              currentLives := (levelCompleted env g).maxLives }
          else
            { levelCompleted env g with
              level := (levelCompleted env g).level + 1, deaths := 0,
              startTime := env.now (levelCompleted env g).nowCalls,
              nowCalls := (levelCompleted env g).nowCalls + 1, time := 0 }) := by
  unfold nextLevel levelCompleted
  dsimp only

/-- The function `levelCompleted` only touches the stats, the watermark, the
clock-call count and the log. -/
theorem levelCompleted_inv {α : Type} (f : Game → α)
    (hf : ∀ (s : Game) ls u k lg, f { s with
      levelStats := ls, unlockedLevels := u, nowCalls := k, log := lg } = f s)
    (env : Env) (g : Game) : f (levelCompleted env g) = f g := by
  unfold levelCompleted recordLevelCompletion unlockNextLevel saveProgress playSound Game.emit
  dsimp only
  split_ifs <;> exact hf g _ _ _ _

theorem levelCompleted_unlockedLevels (env : Env) (g : Game) :
    (levelCompleted env g).unlockedLevels =
      if g.level ≥ g.unlockedLevels ∧ g.level < g.maxLevel then g.level + 1
      else g.unlockedLevels := by
  unfold levelCompleted recordLevelCompletion unlockNextLevel saveProgress playSound Game.emit
  dsimp only
  split_ifs <;> rfl

theorem initLevel_maxLevel (env : Env) (g : Game) : (initLevel env g).maxLevel = g.maxLevel :=
  initLevel_inv Game.maxLevel (fun _ _ _ _ => rfl) (fun _ _ => rfl) env g

theorem initLevel_unlockedLevels (env : Env) (g : Game) :
    (initLevel env g).unlockedLevels = g.unlockedLevels :=
  initLevel_inv Game.unlockedLevels (fun _ _ _ _ => rfl) (fun _ _ => rfl) env g

theorem initLevel_deaths (env : Env) (g : Game) : (initLevel env g).deaths = g.deaths :=
  initLevel_inv Game.deaths (fun _ _ _ _ => rfl) (fun _ _ => rfl) env g

theorem initLevel_currentLives (env : Env) (g : Game) :
    (initLevel env g).currentLives = g.currentLives :=
  initLevel_inv Game.currentLives (fun _ _ _ _ => rfl) (fun _ _ => rfl) env g

/-- The fields of `nextLevel` that the level bookkeeping is about. -/
theorem nextLevel_fields (env : Env) (g : Game) :
    (nextLevel env g).maxLevel = g.maxLevel ∧
    (nextLevel env g).unlockedLevels =
      (if g.level ≥ g.unlockedLevels ∧ g.level < g.maxLevel then g.level + 1
        else g.unlockedLevels) ∧
    (g.maxLevel ≤ g.level → (nextLevel env g).level = g.level) ∧
    (g.level < g.maxLevel →
      (nextLevel env g).level = g.level + 1 ∧ (nextLevel env g).deaths = 0 ∧
      (g.livesEnabled = true → (nextLevel env g).currentLives = g.maxLives) ∧
      (g.livesEnabled = false → (nextLevel env g).currentLives = g.currentLives)) := by
  have hl : (levelCompleted env g).level = g.level :=
    levelCompleted_inv Game.level (fun _ _ _ _ _ => rfl) env g
  have hm : (levelCompleted env g).maxLevel = g.maxLevel :=
    levelCompleted_inv Game.maxLevel (fun _ _ _ _ _ => rfl) env g
  have he : (levelCompleted env g).livesEnabled = g.livesEnabled :=
    levelCompleted_inv Game.livesEnabled (fun _ _ _ _ _ => rfl) env g
  have hml : (levelCompleted env g).maxLives = g.maxLives :=
    levelCompleted_inv Game.maxLives (fun _ _ _ _ _ => rfl) env g
  have hcl : (levelCompleted env g).currentLives = g.currentLives :=
    levelCompleted_inv Game.currentLives (fun _ _ _ _ _ => rfl) env g
  have hu := levelCompleted_unlockedLevels env g
  rw [nextLevel_eq]
  generalize levelCompleted env g = lc at hl hm he hml hcl hu ⊢
  by_cases hmax : lc.level ≥ lc.maxLevel
  · rw [if_pos hmax]
    refine ⟨hm, hu, fun _ => hl, fun h => ?_⟩
    rw [hl, hm] at hmax
    exact absurd hmax (not_le.2 h)
  · rw [if_neg hmax]
    rw [initLevel_maxLevel, initLevel_unlockedLevels, initLevel_deaths, initLevel_currentLives]
    have hI := initLevel_level env
    simp only [hI]
    rw [hl, hm] at hmax
    cases hb : lc.livesEnabled
    · rw [hb] at he
      simp only [Bool.false_eq_true, if_false]
      refine ⟨hm, hu, fun h => absurd h hmax, fun _ => ⟨congrArg (· + 1) hl, trivial, ?_, fun _ => hcl⟩⟩
      intro h
      rw [h] at he
      exact absurd he Bool.false_ne_true
    · rw [hb] at he
      simp only [if_true]
      refine ⟨hm, hu, fun h => absurd h hmax, fun _ => ⟨congrArg (· + 1) hl, trivial, fun _ => hml, ?_⟩⟩
      intro h
      rw [h] at he
      exact absurd he.symm Bool.false_ne_true

theorem bounceInv_step (env : Env) (g : Game) (v w : ℚ) (ob : Obstacle)
    (h : BounceInv g.width (g.gameSpeedMultiplier * g.difficultyMultiplier.speed) v w ob) :
    BounceInv g.width (g.gameSpeedMultiplier * g.difficultyMultiplier.speed) v w
      (updateObstacle env g ob) := by
  obtain ⟨l, rfl, hw, hv, hpos⟩ := h
  refine ⟨_, rfl, hw, ?_, ?_⟩
  · dsimp only
    split_ifs
    · rw [mul_neg_one, abs_neg]; exact hv
    · exact hv
  · dsimp only
    rw [hw]
    rcases hpos with hin | hnext
    · by_cases hb : l.x + l.speedX * (g.gameSpeedMultiplier * g.difficultyMultiplier.speed) ≤ 0 ∨
          l.x + l.speedX * (g.gameSpeedMultiplier * g.difficultyMultiplier.speed) ≥ g.width - w
      · right
        rw [if_pos hb]
        have e : l.x + l.speedX * (g.gameSpeedMultiplier * g.difficultyMultiplier.speed)
            + l.speedX * -1 * (g.gameSpeedMultiplier * g.difficultyMultiplier.speed) = l.x := by
          ring
        rw [e]
        exact hin
      · left
        rw [not_or, not_le, not_le] at hb
        exact hb
    · left
      exact hnext

theorem bounceInv_iterate (env : Env) (g : Game) (v w : ℚ) (ob : Obstacle) (n : ℕ)
    (h : BounceInv g.width (g.gameSpeedMultiplier * g.difficultyMultiplier.speed) v w ob) :
    BounceInv g.width (g.gameSpeedMultiplier * g.difficultyMultiplier.speed) v w
      ((updateObstacle env g)^[n] ob) := by
  induction n with
  | zero => exact h
  | succ n ih =>
    rw [Function.iterate_succ_apply']
    exact bounceInv_step env g v w _ ih

theorem bounceInv_bound (W m v w : ℚ) (hm : 0 < m) (l : Linear)
    (h : BounceInv W m v w (.linear l)) :
    -(|v| * m) ≤ l.x ∧ l.x ≤ W - w + |v| * m := by
  obtain ⟨l', hl, _, hv, hpos⟩ := h
  cases hl
  have hnn : 0 ≤ |v| * m := mul_nonneg (abs_nonneg v) (le_of_lt hm)
  rcases hpos with hin | hnext
  · constructor <;> linarith [hin.1, hin.2]
  · have h1 : l.speedX * m ≤ |v| * m := by
      rw [← hv]
      exact mul_le_mul_of_nonneg_right (le_abs_self _) (le_of_lt hm)
    have h2 : -(|v| * m) ≤ l.speedX * m := by
      rw [← hv, ← neg_mul]
      exact mul_le_mul_of_nonneg_right (neg_abs_le _) (le_of_lt hm)
    constructor <;> linarith [hnext.1, hnext.2]

/-- Every obstacle that `createRandomLevel` adds has no centre set. -/
theorem createRandomLevel_centre (env : Env) (g : Game) :
    ∀ ob ∈ (createRandomLevel env g).obstacles, ob ∈ g.obstacles ∨ ob.centreUnset := by
  obtain ⟨F1, F2, F3, he, hF1, hF2⟩ : ∃ (F1 F2 : Game → Obstacle) (F3 : Game → Collectible),
      createRandomLevel env g =
        forLoop (Int.toNat (min 5 (⌊((forLoop (Int.toNat ⌊(8 + (g.level : ℚ) * 2) / 2⌋)
            (fun _ s => (s.pushObstacle (F2 s)).consume 6)
            (forLoop (Int.toNat ⌊(8 + (g.level : ℚ) * 2) / 2⌋)
              (fun _ s => (s.pushObstacle (F1 s)).consume 5) g)).level : ℚ) / 2⌋ + 2)))
          (fun _ s => (s.pushCollectible (F3 s)).consume 2)
          (forLoop (Int.toNat ⌊(8 + (g.level : ℚ) * 2) / 2⌋)
            (fun _ s => (s.pushObstacle (F2 s)).consume 6)
            (forLoop (Int.toNat ⌊(8 + (g.level : ℚ) * 2) / 2⌋)
              (fun _ s => (s.pushObstacle (F1 s)).consume 5) g)) ∧
      (∀ s, (F1 s).centreUnset) ∧ (∀ s, (F2 s).centreUnset) := by
    refine ⟨_, _, _, rfl, ?_, ?_⟩
    · intro s; exact ⟨rfl, rfl⟩
    · intro s; exact trivial
  obtain ⟨l1, h1, _, p1⟩ := forLoop_pushRandomObstacle
    (Int.toNat ⌊(8 + (g.level : ℚ) * 2) / 2⌋) 5 F1 g
  obtain ⟨l2, h2, _, p2⟩ := forLoop_pushRandomObstacle
    (Int.toNat ⌊(8 + (g.level : ℚ) * 2) / 2⌋) 6 F2
    (forLoop (Int.toNat ⌊(8 + (g.level : ℚ) * 2) / 2⌋)
      (fun _ s => (s.pushObstacle (F1 s)).consume 5) g)
  have ho : (createRandomLevel env g).obstacles = g.obstacles ++ l1 ++ l2 := by
    rw [he]
    refine (forLoop_inv Game.obstacles _ _ (fun _ _ => ?_) _).trans ?_
    · rfl
    · rw [h2, h1]
  intro ob hob
  rw [ho] at hob
  rcases List.mem_append.1 hob with hob | hob
  · rcases List.mem_append.1 hob with hob | hob
    · exact Or.inl hob
    · obtain ⟨s, rfl⟩ := p1 ob hob
      exact Or.inr (hF1 s)
  · obtain ⟨s, rfl⟩ := p2 ob hob
    exact Or.inr (hF2 s)

/-- Every obstacle that `initLevel` generates, at any level, has no centre
set. -/
theorem initLevel_centre (env : Env) (g : Game) :
    ∀ ob ∈ (initLevel env g).obstacles, ob.centreUnset := by
  intro ob hob
  unfold initLevel at hob
  dsimp only at hob
  split_ifs at hob
  · rw [(createLevel1_lists _).1] at hob
    simp only [List.nil_append, List.mem_map] at hob
    obtain ⟨i, _, rfl⟩ := hob
    exact trivial
  · rw [(createLevel2_lists _ _).1] at hob
    simp only [List.nil_append, List.mem_append, List.mem_map] at hob
    rcases hob with ⟨i, _, rfl⟩ | ⟨i, _, rfl⟩
    · exact trivial
    · exact ⟨rfl, rfl⟩
  · rw [(createLevel3_lists _ _).1] at hob
    simp only [List.nil_append, List.mem_append, List.mem_map] at hob
    rcases hob with ⟨i, _, rfl⟩ | ⟨i, _, rfl⟩
    · exact ⟨rfl, rfl⟩
    · exact trivial
  · rw [(createLevel4_lists _ _).1] at hob
    simp only [List.nil_append, List.mem_append, List.mem_map] at hob
    rcases hob with ⟨i, _, rfl⟩ | ⟨i, _, rfl⟩
    · exact ⟨rfl, rfl⟩
    · exact trivial
  · rw [(createLevel5_lists _ _).1] at hob
    simp only [List.nil_append, List.mem_append, List.mem_map] at hob
    rcases hob with (⟨i, _, rfl⟩ | ⟨i, _, rfl⟩) | ⟨i, _, rfl⟩
    · exact ⟨rfl, rfl⟩
    · exact ⟨rfl, rfl⟩
    · exact trivial
  · rcases createRandomLevel_centre env _ ob hob with h | h
    · cases h
    · exact h

/-- A tick keeps the kind of an obstacle and its centre. -/
theorem updateObstacle_centre (env : Env) (g : Game) (ob : Obstacle) (h : ob.centreUnset) :
    (updateObstacle env g ob).centreUnset := by
  cases ob with
  | linear l => exact trivial
  | orbital o => exact h

theorem updateObstacle_iterate_centre (env : Env) (g : Game) (ob : Obstacle) (n : ℕ)
    (h : ob.centreUnset) : ((updateObstacle env g)^[n] ob).centreUnset := by
  induction n with
  | zero => exact h
  | succ n ih =>
    rw [Function.iterate_succ_apply']
    exact updateObstacle_centre env g _ ih

/-- After a tick an orbital obstacle without centre sits on the circle around
(300, 300). -/
theorem updateObstacle_orbit (env : Env) (g : Game) (ob : Obstacle) (h : ob.centreUnset)
    (o' : Orbital) (ho : updateObstacle env g ob = .orbital o') :
    o'.x = 300 + o'.radius * env.cos o'.angle - o'.width / 2 ∧
    o'.y = 300 + o'.radius * env.sin o'.angle - o'.height / 2 := by
  cases ob with
  | linear l => cases ho
  | orbital o =>
    obtain ⟨hx, hy⟩ := h
    simp only [updateObstacle, Obstacle.orbital.injEq] at ho
    subst ho
    simp only [hx, hy, orDefault]
    constructor <;> ring

theorem checkCollisions_eq (env : Env) (g : Game) :
    checkCollisions env g =
      { (collectLoop env (obstaclePass env g.obstacles g).collectibles
          (obstaclePass env g.obstacles g)).2 with
        collectibles := (collectLoop env (obstaclePass env g.obstacles g).collectibles
          (obstaclePass env g.obstacles g)).1 } := rfl

theorem obstaclePass_cons (env : Env) (o : Obstacle) (os : List Obstacle) (g : Game) :
    obstaclePass env (o :: os) g =
      obstaclePass env os (if isColliding g.player.rect o.rect then playerDied env g else g) := rfl

theorem playerDied_deaths (env : Env) (g : Game) :
    (playerDied env g).deaths = g.deaths + 1 := by
  rw [playerDied_eq]
  split_ifs <;> exact deathEffects_deaths env g

theorem obstaclePass_deaths_le (env : Env) (os : List Obstacle) (g : Game) :
    g.deaths ≤ (obstaclePass env os g).deaths := by
  induction os generalizing g with
  | nil => exact le_refl _
  | cons o os ih =>
    rw [obstaclePass_cons]
    split_ifs
    · have := ih (playerDied env g)
      rw [playerDied_deaths] at this
      omega
    · exact ih g

/-- An obstacle that overlaps the player where the pass starts causes a
death. -/
theorem obstaclePass_hit (env : Env) (os : List Obstacle) (g : Game)
    (h : ∃ o ∈ os, Overlaps g.player.rect o.rect) :
    g.deaths < (obstaclePass env os g).deaths := by
  induction os generalizing g with
  | nil =>
    obtain ⟨o, ho, _⟩ := h
    cases ho
  | cons o os ih =>
    rw [obstaclePass_cons]
    by_cases hc : isColliding g.player.rect o.rect = true
    · rw [if_pos hc]
      have := obstaclePass_deaths_le env os (playerDied env g)
      rw [playerDied_deaths] at this
      omega
    · rw [if_neg hc]
      apply ih
      obtain ⟨o', ho', hov⟩ := h
      rcases List.mem_cons.1 ho' with rfl | hmem
      · exact absurd ((isColliding_eq_true_iff _ _).2 hov) hc
      · exact ⟨o', hmem, hov⟩

theorem playerDied_off_fields (env : Env) (g : Game) (h : g.livesEnabled = false) :
    (playerDied env g).livesEnabled = false ∧
    (playerDied env g).player = { g.player with x := 50, y := 300 } ∧
    (playerDied env g).collectibles = g.collectibles.map (fun c => { c with collected := false }) := by
  have hl : (deathEffects env g).livesEnabled = false :=
    (deathEffects_inv Game.livesEnabled (fun _ _ _ _ _ _ _ => rfl) env g).trans h
  refine ⟨(playerDied_livesEnabled env g).trans h, ?_, ?_⟩
  · rw [playerDied_eq, hl]
    simp only [Bool.false_eq_true, if_false]
    rw [deathEffects_inv Game.player (fun _ _ _ _ _ _ _ => rfl) env g]
  · rw [playerDied_eq, hl]
    simp only [Bool.false_eq_true, if_false]
    rw [deathEffects_inv Game.collectibles (fun _ _ _ _ _ _ _ => rfl) env g]

/-- With lives mode off, a pass in which the player died leaves the player at
the spawn point and every flag reset. -/
theorem obstaclePass_off (env : Env) (os : List Obstacle) (g : Game)
    (h : g.livesEnabled = false) :
    obstaclePass env os g = g ∨
      ((obstaclePass env os g).player = { g.player with x := 50, y := 300 } ∧
        (obstaclePass env os g).collectibles
          = g.collectibles.map (fun c => { c with collected := false })) := by
  induction os generalizing g with
  | nil => exact Or.inl rfl
  | cons o os ih =>
    rw [obstaclePass_cons]
    split_ifs
    · obtain ⟨h1, h2, h3⟩ := playerDied_off_fields env g h
      right
      rcases ih (playerDied env g) h1 with e | ⟨e1, e2⟩
      · rw [e]
        exact ⟨h2, h3⟩
      · rw [e1, e2, h2, h3, List.map_map]
        exact ⟨rfl, rfl⟩
    · exact ih g h

/-- The collectible pass leaves deaths, lives and `gameOver` as the obstacle pass
left them. -/
theorem checkCollisions_fields (env : Env) (g : Game) :
    (checkCollisions env g).deaths = (obstaclePass env g.obstacles g).deaths ∧
    (checkCollisions env g).currentLives = (obstaclePass env g.obstacles g).currentLives ∧
    (checkCollisions env g).gameOver = (obstaclePass env g.obstacles g).gameOver := by
  obtain ⟨_, _, c3, c4, c5⟩ := collectLoop_spec env (obstaclePass env g.obstacles g).collectibles
    (obstaclePass env g.obstacles g)
  rw [checkCollisions_eq]
  exact ⟨c3, c4, c5⟩

/-- In lives mode the obstacle pass takes one life and adds one death per hit;
`gameOver` is set as soon as a hit leaves no life. -/
theorem obstaclePass_lives (env : Env) (os : List Obstacle) (g : Game)
    (h : g.livesEnabled = true) :
    ∃ k : ℕ, k ≤ os.length ∧
      (obstaclePass env os g).currentLives = g.currentLives - k ∧
      (obstaclePass env os g).deaths = g.deaths + k ∧
      ((obstaclePass env os g).gameOver = true ↔
        (g.gameOver = true ∨ (1 ≤ k ∧ g.currentLives - k ≤ 0))) := by
  induction os generalizing g with
  | nil => exact ⟨0, le_refl _, by simp [obstaclePass], by simp [obstaclePass], by simp [obstaclePass]⟩
  | cons o os ih =>
    rw [obstaclePass_cons]
    by_cases hc : isColliding g.player.rect o.rect = true
    · rw [if_pos hc]
      obtain ⟨a1, a2, _, a4, a5⟩ := playerDied_lives_on_aux env g h
      obtain ⟨k, hk, e1, e2, e3⟩ := ih (playerDied env g) ((playerDied_livesEnabled env g).trans h)
      refine ⟨k + 1, by simp [hk], ?_, ?_, ?_⟩
      · rw [e1, a1]; push_cast; ring
      · rw [e2, a2]; push_cast; ring
      · rw [e3, a1]
        by_cases hpos : 0 < g.currentLives - 1
        · rw [(a4 hpos).2]
          constructor
          · rintro (hg | ⟨hk1, hle⟩)
            · exact Or.inl hg
            · exact Or.inr ⟨by omega, by push_cast; omega⟩
          · rintro (hg | ⟨_, hle⟩)
            · exact Or.inl hg
            · push_cast at hle
              exact Or.inr ⟨by omega, by omega⟩
        · rw [(a5 (not_lt.1 hpos)).1]
          constructor
          · intro _
            exact Or.inr ⟨by omega, by push_cast; omega⟩
          · intro _
            exact Or.inl rfl
    · rw [if_neg hc]
      obtain ⟨k, hk, e1, e2, e3⟩ := ih g h
      exact ⟨k, Nat.le_succ_of_le hk, e1, e2, e3⟩

theorem truthy_eq_false_iff (saved : Option String) :
    truthy saved = false ↔ saved = none ∨ saved = some "" := by
  cases saved with
  | none => simp [truthy]
  | some text => simp [truthy]

/-! ## Theorems -/

/-- C1: `isColliding a b` is true exactly when the four strict inequalities of
the overlap test hold, and two rectangles of which one ends exactly where the
other begins (on either axis, in either order) do not collide. -/
theorem isColliding_strict (a b : Rect) :
    (isColliding a b = true ↔
      (a.x < b.x + b.width ∧ a.x + a.width > b.x ∧
        a.y < b.y + b.height ∧ a.y + a.height > b.y)) ∧
    ((a.x + a.width = b.x ∨ b.x + b.width = a.x ∨
        a.y + a.height = b.y ∨ b.y + b.height = a.y) → isColliding a b = false) := by
  refine ⟨isColliding_eq_true_iff a b, ?_⟩
  intro h
  rw [isColliding_eq_false_iff]
  rintro ⟨h1, h2, h3, h4⟩
  rcases h with h | h | h | h
  · rw [h] at h2; exact lt_irrefl _ h2
  · rw [h] at h1; exact lt_irrefl _ h1
  · rw [h] at h4; exact lt_irrefl _ h4
  · rw [h] at h3; exact lt_irrefl _ h3

/-- Witness for C1: a 10 by 10 square at the origin and a square starting at
`x = 10` touch along an edge and do not collide. -/
theorem isColliding_strict_witness :
    isColliding ⟨0, 0, 10, 10⟩ ⟨10, 0, 5, 5⟩ = false :=
  (isColliding_strict ⟨0, 0, 10, 10⟩ ⟨10, 0, 5, 5⟩).2 (Or.inl (by norm_num))

/-- C2: `checkWinCondition` performs the level transition (its result is that of
`nextLevel`, which always differs from the state it starts from) if and only if
every collectible is collected and the player rectangle overlaps the goal
rectangle; and when some collectible is uncollected it returns the state
unchanged, wherever the player is. -/
theorem checkWinCondition_iff (env : Env) (g : Game) :
    (checkWinCondition env g = nextLevel env g ↔
      ((∀ c ∈ g.collectibles, c.collected = true) ∧
        (g.player.x < g.goal.x + g.goal.width ∧ g.player.x + g.player.width > g.goal.x ∧
          g.player.y < g.goal.y + g.goal.height ∧ g.player.y + g.player.height > g.goal.y))) ∧
    (checkWinCondition env g ≠ nextLevel env g → checkWinCondition env g = g) ∧
    ((∃ c ∈ g.collectibles, c.collected = false) → checkWinCondition env g = g) := by
  have hover : isColliding g.player.rect g.goal = true ↔
      (g.player.x < g.goal.x + g.goal.width ∧ g.player.x + g.player.width > g.goal.x ∧
        g.player.y < g.goal.y + g.goal.height ∧ g.player.y + g.player.height > g.goal.y) :=
    isColliding_eq_true_iff _ _
  rw [← hover, ← all_collected_iff]
  unfold checkWinCondition
  simp only [Bool.and_eq_true]
  refine ⟨?_, ?_, ?_⟩
  · split_ifs with h
    · simp [h]
    · simp only [h, iff_false]
      exact fun h' => nextLevel_ne env g h'.symm
  · split_ifs with h
    · intro h'; exact absurd rfl h'
    · intro _; rfl
  · rintro ⟨c, hc, hcf⟩
    have hall : ¬ (g.collectibles.all (fun c => c.collected) = true) := by
      rw [all_collected_iff]
      intro h
      rw [h c hc] at hcf
      exact Bool.noConfusion hcf
    rw [if_neg (fun h => hall h.1)]

/-- C3: when the player overlaps no obstacle, `checkCollisions` leaves deaths,
lives, `gameOver` and the player unchanged, and the new collectibles are the old
ones, in order, where exactly the uncollected ones that overlap the player have
`collected` set to true: one that does not overlap keeps its flag, a collected
one stays collected. -/
theorem checkCollisions_no_obstacle_hit (env : Env) (g : Game)
    (h : ∀ o ∈ g.obstacles, ¬ Overlaps g.player.rect o.rect) :
    (checkCollisions env g).deaths = g.deaths ∧
    (checkCollisions env g).currentLives = g.currentLives ∧
    (checkCollisions env g).gameOver = g.gameOver ∧
    (checkCollisions env g).player = g.player ∧
    (checkCollisions env g).collectibles = g.collectibles.map (fun c =>
      if c.collected = false ∧ Overlaps g.player.rect c.rect
      then { c with collected := true } else c) ∧
    (∀ c ∈ g.collectibles, ¬ Overlaps g.player.rect c.rect →
      (if c.collected = false ∧ Overlaps g.player.rect c.rect
        then { c with collected := true } else c) = c) ∧
    (∀ c ∈ g.collectibles, c.collected = true →
      (if c.collected = false ∧ Overlaps g.player.rect c.rect
        then { c with collected := true } else c) = c) := by
  unfold checkCollisions
  simp only [obstaclePass_of_no_hit env g.obstacles g h]
  obtain ⟨h1, h2, h3, h4, h5⟩ := collectLoop_spec env g.collectibles g
  refine ⟨h3, h4, h5, h2, h1, ?_, ?_⟩
  · intro c _ hc
    rw [if_neg (fun hh => hc hh.2)]
  · intro c _ hc
    rw [if_neg (fun hh => by rw [hc] at hh; exact Bool.noConfusion hh.1)]

/-- Witness for C3: in `demoGame` the obstacle is away from the player, the
first collectible overlaps the player and becomes collected, the second does
not. -/
theorem checkCollisions_no_obstacle_hit_witness :
    (checkCollisions demoEnv demoGame).deaths = 0 ∧
    (checkCollisions demoEnv demoGame).collectibles =
      [{ x := 60, y := 310, width := 9, height := 9, collected := true },
       { x := 500, y := 350, width := 9, height := 9, collected := false }] := by
  have h := checkCollisions_no_obstacle_hit demoEnv demoGame
    (by simp [demoGame, Overlaps, Player.rect, Obstacle.rect]; norm_num)
  refine ⟨h.1, ?_⟩
  rw [h.2.2.2.2.1]
  simp [demoGame, Overlaps, Player.rect, Collectible.rect]
  norm_num

/-- C4: `updatePlayer` decides each axis on its own.  When the proposal is the
pair of numbers `(px, py)`, the new `x` is `px` if `0 ≤ px ≤ width - player.width`
and the old `x` otherwise (never a clamped value), and the new `y` is `py` if
`0 ≤ py ≤ height - player.height` and the old `y` otherwise; a proposal that is
not a finite number is in no range and leaves the game as it was.  Nothing but
the player position changes. -/
theorem updatePlayer_per_axis (env : Env) (g : Game) :
    (∀ px py, proposedPosition env g = some (px, py) →
      (updatePlayer env g).player.x =
        (if 0 ≤ px ∧ px ≤ g.width - g.player.width then px else g.player.x) ∧
      (updatePlayer env g).player.y =
        (if 0 ≤ py ∧ py ≤ g.height - g.player.height then py else g.player.y) ∧
      updatePlayer env g = { g with player := { g.player with
        x := (updatePlayer env g).player.x, y := (updatePlayer env g).player.y } }) ∧
    (proposedPosition env g = none → updatePlayer env g = g) := by
  refine ⟨?_, ?_⟩
  · intro px py h
    rw [updatePlayer_of_some env g px py h]
    exact ⟨rfl, rfl, rfl⟩
  · intro h
    unfold updatePlayer
    rw [h]

/-- Witness for C4: in `demoGame` the proposal is (52, 300), both axes in
range. -/
theorem updatePlayer_per_axis_witness :
    proposedPosition demoEnv demoGame = some (52, 300) ∧
    (updatePlayer demoEnv demoGame).player.x = 52 ∧
    (updatePlayer demoEnv demoGame).player.y = 300 := by
  have hp : proposedPosition demoEnv demoGame = some (52, 300) := by
    simp [proposedPosition, gestureBlock, touchBlock, keyboardBlock, demoGame]
    norm_num
  obtain ⟨hx, hy, _⟩ := (updatePlayer_per_axis demoEnv demoGame).1 52 300 hp
  refine ⟨hp, ?_, ?_⟩
  · rw [hx]; simp [demoGame]; norm_num
  · rw [hy]; simp [demoGame]

/-- C5: with the keyboard enabled and no gesture or touch target, the proposal
is the old position moved by exactly `player.speed` for each pressed direction,
each axis on its own and with no normalisation of diagonals.  With only
right pressed `y` is unchanged and `x` becomes `x + speed` when that is in range
(so 45 becomes 52 for speed 7, width 640, player width 22); with right and down
pressed the proposal is `(x + speed, y + speed)`. -/
theorem updatePlayer_keyboard (env : Env) (g : Game)
    (hk : g.keyboardEnabled = true) (hf : g.fingerTarget = none) (ht : g.touchTarget = none) :
    proposedPosition env g = some
      (g.player.x - (if g.keys "a" || g.keys "arrowleft" then g.player.speed else 0)
          + (if g.keys "d" || g.keys "arrowright" then g.player.speed else 0),
        g.player.y - (if g.keys "w" || g.keys "arrowup" then g.player.speed else 0)
          + (if g.keys "s" || g.keys "arrowdown" then g.player.speed else 0)) ∧
    (((g.keys "d" || g.keys "arrowright") = true ∧ (g.keys "a" || g.keys "arrowleft") = false ∧
        (g.keys "w" || g.keys "arrowup") = false ∧ (g.keys "s" || g.keys "arrowdown") = false) →
      (updatePlayer env g).player.y = g.player.y ∧
      (0 ≤ g.player.x + g.player.speed →
        g.player.x + g.player.speed ≤ g.width - g.player.width →
        (updatePlayer env g).player.x = g.player.x + g.player.speed) ∧
      (g.player.x = 45 → g.player.speed = 7 → g.width = 640 → g.player.width = 22 →
        (updatePlayer env g).player.x = 52)) ∧
    (((g.keys "d" || g.keys "arrowright") = true ∧ (g.keys "a" || g.keys "arrowleft") = false ∧
        (g.keys "w" || g.keys "arrowup") = false ∧ (g.keys "s" || g.keys "arrowdown") = true) →
      proposedPosition env g = some (g.player.x + g.player.speed, g.player.y + g.player.speed)) := by
  have hp : proposedPosition env g = some
      (g.player.x - (if g.keys "a" || g.keys "arrowleft" then g.player.speed else 0)
          + (if g.keys "d" || g.keys "arrowright" then g.player.speed else 0),
        g.player.y - (if g.keys "w" || g.keys "arrowup" then g.player.speed else 0)
          + (if g.keys "s" || g.keys "arrowdown" then g.player.speed else 0)) := by
    simp only [proposedPosition, gestureBlock, touchBlock, keyboardBlock, hk, hf, ht, if_true,
      Option.some_bind]
    congr 2
    · by_cases h1 : (g.keys "a" || g.keys "arrowleft") = true <;>
        by_cases h2 : (g.keys "d" || g.keys "arrowright") = true <;> simp [h1, h2]
    · by_cases h1 : (g.keys "w" || g.keys "arrowup") = true <;>
        by_cases h2 : (g.keys "s" || g.keys "arrowdown") = true <;> simp [h1, h2]
  refine ⟨hp, ?_, ?_⟩
  · rintro ⟨hr, hl, hu, hd⟩
    have hp2 : proposedPosition env g = some (g.player.x + g.player.speed, g.player.y) := by
      rw [hp, hr, hl, hu, hd]; simp
    have hstep : 0 ≤ g.player.x + g.player.speed →
        g.player.x + g.player.speed ≤ g.width - g.player.width →
        (updatePlayer env g).player.x = g.player.x + g.player.speed := by
      intro h0 h1
      rw [updatePlayer_of_some env g _ _ hp2]
      exact if_pos ⟨h0, h1⟩
    refine ⟨?_, hstep, ?_⟩
    · rw [updatePlayer_of_some env g _ _ hp2]
      exact ite_self _
    · intro hx hs hw hpw
      have := hstep (by rw [hx, hs]; norm_num) (by rw [hx, hs, hw, hpw]; norm_num)
      rw [this, hx, hs]; norm_num
  · rintro ⟨hr, hl, hu, hd⟩
    rw [hp, hr, hl, hu, hd]; simp

/-- Witness for C5: `demoGame` has the keyboard enabled, no targets and only
`d` pressed; the player moves from x = 45 to x = 52. -/
theorem updatePlayer_keyboard_witness :
    (updatePlayer demoEnv demoGame).player.x = 52 ∧
    (updatePlayer demoEnv demoGame).player.y = 300 := by
  obtain ⟨_, h, _⟩ := updatePlayer_keyboard demoEnv demoGame rfl rfl rfl
  obtain ⟨hy, _, hx⟩ := h (by simp [demoGame])
  exact ⟨hx rfl rfl rfl rfl, hy⟩

/-- C6, counterexample: with the sensitivity configured as 0 and the target 10
away from the player centre, the claim gives the gesture channel `s = 0`, hence
a displacement of length `speed × 0 = 0` at most; the code falls back to
`s = 1` and moves the proposal by (21/5, 28/5), of length 7. -/
theorem gesture_zero_sensitivity_counterexample :
    ({ demoEnv with gesturesSensitivity := some 0 } : Env).gesturesSensitivity = some 0 ∧
    gestureBlock { demoEnv with gesturesSensitivity := some 0 } demoPointing (45, 300)
      = some (45 + 21 / 5, 300 + 28 / 5) ∧
    ((21 / 5 : ℚ)) ^ 2 + (28 / 5) ^ 2 ≠ (demoGame.player.speed * 0) ^ 2 := by
  refine ⟨rfl, ?_, by norm_num⟩
  simp [gestureBlock, pointingBlock, orDefault, demoEnv, demoPointing, demoGame]
  norm_num

/-- C6, amended: let `d` be the value of `Math.sqrt` for the offset `(dx, dy)`
from the player centre to the target.  A pointing channel adds nothing when
`d` is at most its deadzone, and otherwise (for `d ≠ 0`) adds `speed × s` times
`(dx / d, dy / d)`, which is a unit vector whenever the square root is exact, so
that the displacement has squared length `(speed × s)²`.  For the gesture
channel `s` is the configured sensitivity when it is set and non-zero and 1 when
it is unset or zero, and the deadzone is `5 / s`; for the touch channel `s` is
0.8 and the deadzone is 10.  A channel without a target adds nothing. -/
theorem pointing_contribution (env : Env) (g : Game) (target : Target) (acc : ℚ × ℚ) (s : ℚ)
    (hs : (env.gesturesSensitivity = none ∧ s = 1) ∨
      (env.gesturesSensitivity = some 0 ∧ s = 1) ∨
      (env.gesturesSensitivity = some s ∧ s ≠ 0)) :
    let dx := target.x - (g.player.x + g.player.width / 2)
    let dy := target.y - (g.player.y + g.player.height / 2)
    let d := env.sqrt (dx * dx + dy * dy)
    (g.fingerTarget = some target →
      (d ≤ 5 / s → gestureBlock env g acc = some acc) ∧
      (5 / s < d → d ≠ 0 → gestureBlock env g acc =
        some (acc.1 + g.player.speed * s * (dx / d), acc.2 + g.player.speed * s * (dy / d)))) ∧
    (g.fingerTarget = none → gestureBlock env g acc = some acc) ∧
    (g.touchTarget = some target →
      (d ≤ 10 → touchBlock env g acc = some acc) ∧
      (10 < d → touchBlock env g acc =
        some (acc.1 + g.player.speed * (8 / 10) * (dx / d),
          acc.2 + g.player.speed * (8 / 10) * (dy / d)))) ∧
    (g.touchTarget = none → touchBlock env g acc = some acc) ∧
    (d ≠ 0 → d * d = dx * dx + dy * dy →
      (dx / d) ^ 2 + (dy / d) ^ 2 = 1 ∧
      ∀ a : ℚ, (a * (dx / d)) ^ 2 + (a * (dy / d)) ^ 2 = a ^ 2) := by
  intro dx dy d
  have hsens : orDefault env.gesturesSensitivity 1 = s := by
    rcases hs with ⟨h, rfl⟩ | ⟨h, rfl⟩ | ⟨h, h0⟩ <;> simp [orDefault, h]
    exact fun h => absurd h h0
  refine ⟨?_, ?_, ?_, ?_, ?_⟩
  · intro hf
    refine ⟨?_, ?_⟩
    · intro hd
      simp only [gestureBlock, hf, pointingBlock, hsens]
      rw [if_neg (not_lt.2 hd)]
    · intro hd h0
      simp only [gestureBlock, hf, pointingBlock, hsens]
      rw [if_pos hd, if_neg h0]
      simp only [Option.some.injEq, Prod.mk.injEq]
      constructor <;> ring
  · intro hf
    simp only [gestureBlock, hf]
  · intro ht
    refine ⟨?_, ?_⟩
    · intro hd
      simp only [touchBlock, ht, pointingBlock]
      rw [if_neg (not_lt.2 hd)]
    · intro hd
      have h0 : d ≠ 0 := by
        intro h
        rw [h] at hd
        norm_num at hd
      simp only [touchBlock, ht, pointingBlock]
      rw [if_pos hd, if_neg h0]
      simp only [Option.some.injEq, Prod.mk.injEq]
      constructor <;> ring
  · intro ht
    simp only [touchBlock, ht]
  · intro h0 hsq
    have hunit : (dx / d) ^ 2 + (dy / d) ^ 2 = 1 := by
      have hd2 : d ^ 2 ≠ 0 := pow_ne_zero 2 h0
      rw [div_pow, div_pow, ← add_div, div_eq_one_iff_eq hd2]
      rw [sq, sq, sq, hsq]
    refine ⟨hunit, fun a => ?_⟩
    rw [mul_pow, mul_pow, ← mul_add, hunit, mul_one]

/-- Witness for C6: sensitivity unset (so `s = 1`), target (62, 319), player
centre (56, 311): the distance is 10 and the gesture channel adds
7 × (6/10, 8/10). -/
theorem pointing_contribution_witness :
    gestureBlock demoEnv demoPointing (45, 300)
      = some (45 + 7 * 1 * (6 / 10), 300 + 7 * 1 * (8 / 10)) := by
  have h := ((pointing_contribution demoEnv demoPointing ⟨62, 319⟩ (45, 300) 1
    (Or.inl ⟨rfl, rfl⟩)).1 rfl).2
  refine (h ?_ ?_).trans ?_
  · simp [demoEnv, demoPointing, demoGame]; norm_num
  · simp [demoEnv, demoPointing, demoGame]; norm_num
  · simp [demoEnv, demoPointing, demoGame]; norm_num

/-- C7: each block of `updatePlayer` adds to the accumulators a contribution
that depends on the pre-tick game only (for the pointing blocks: on the pre-tick
player centre), not on what earlier blocks added.  Hence the proposal is the
pre-tick position plus the sum of the keyboard, gesture and touch contributions,
all three being applied, and applying the three blocks in any order gives the
same proposal. -/
theorem proposedPosition_sum (env : Env) (g : Game) :
    (∀ acc, keyboardBlock g acc =
      (acc.1 + (keyboardBlock g (0, 0)).1, acc.2 + (keyboardBlock g (0, 0)).2)) ∧
    (∀ acc, gestureBlock env g acc =
      (gestureBlock env g (0, 0)).map (fun c => (acc.1 + c.1, acc.2 + c.2))) ∧
    (∀ acc, touchBlock env g acc =
      (touchBlock env g (0, 0)).map (fun c => (acc.1 + c.1, acc.2 + c.2))) ∧
    proposedPosition env g =
      (gestureBlock env g (0, 0)).bind (fun ge =>
        (touchBlock env g (0, 0)).map (fun t =>
          (g.player.x + ((keyboardBlock g (0, 0)).1 + ge.1 + t.1),
            g.player.y + ((keyboardBlock g (0, 0)).2 + ge.2 + t.2)))) ∧
    (∀ blocks : List (ℚ × ℚ → Option (ℚ × ℚ)),
      blocks.Perm [fun acc => some (keyboardBlock g acc), gestureBlock env g, touchBlock env g] →
      applyBlocks blocks (some (g.player.x, g.player.y)) = proposedPosition env g) := by
  have hk : ∀ acc, keyboardBlock g acc =
      (acc.1 + (keyboardBlock g (0, 0)).1, acc.2 + (keyboardBlock g (0, 0)).2) := by
    intro acc
    have h := keyboardBlock_eq_shift g acc
    simp only [shift, Option.map_some', Option.some.injEq] at h
    exact h
  refine ⟨hk, fun acc => gestureBlock_eq_shift env g acc,
    fun acc => touchBlock_eq_shift env g acc, ?_, ?_⟩
  · unfold proposedPosition
    rw [gestureBlock_eq_shift, hk]
    cases hg : gestureBlock env g (0, 0) with
    | none => simp [shift]
    | some ge =>
      simp only [shift, Option.map_some', Option.some_bind]
      rw [touchBlock_eq_shift]
      cases ht : touchBlock env g (0, 0) with
      | none => simp [shift]
      | some t => simp [shift, add_assoc]
  · intro blocks hp
    have hall : ∀ b ∈ [fun acc => some (keyboardBlock g acc), gestureBlock env g,
        touchBlock env g], ∃ c, b = shift c := by
      intro b hb
      simp only [List.mem_cons, List.mem_singleton, List.not_mem_nil, or_false] at hb
      rcases hb with rfl | rfl | rfl
      · exact ⟨some (keyboardBlock g (0, 0)), funext (keyboardBlock_eq_shift g)⟩
      · exact ⟨gestureBlock env g (0, 0), funext (gestureBlock_eq_shift env g)⟩
      · exact ⟨touchBlock env g (0, 0), funext (touchBlock_eq_shift env g)⟩
    rw [applyBlocks_perm hp (fun b hb => hall b (hp.mem_iff.1 hb))]
    simp [applyBlocks, proposedPosition]

/-- Witness for C7: in `demoPointing` the touch block run before the gesture
block and the keyboard block gives the proposal of `updatePlayer`, which is
(45 + 7 + 21/5, 300 + 28/5). -/
theorem proposedPosition_sum_witness :
    applyBlocks [touchBlock demoEnv demoPointing, gestureBlock demoEnv demoPointing,
        fun acc => some (keyboardBlock demoPointing acc)] (some (45, 300))
      = proposedPosition demoEnv demoPointing ∧
    proposedPosition demoEnv demoPointing = some (45 + 7 + 21 / 5, 300 + 28 / 5) := by
  refine ⟨(proposedPosition_sum demoEnv demoPointing).2.2.2.2 _ ?_, ?_⟩
  · exact (List.Perm.swap _ _ _).trans
      ((List.Perm.cons _ (List.Perm.swap _ _ _)).trans (List.Perm.swap _ _ _))
  · simp [proposedPosition, gestureBlock, touchBlock, keyboardBlock, pointingBlock, orDefault,
      demoEnv, demoPointing, demoGame]
    norm_num

/-- C8: one `updateObstacles` tick moves every linear obstacle to its old
position plus velocity × (gameSpeedMultiplier × difficulty speed multiplier) on
both axes, bounce or no bounce, and keeps its size; and while every position
reached in `N` consecutive ticks lies strictly inside the arena (no bounce), the
obstacle has advanced by `N` × velocity × multiplier and kept its velocity. -/
theorem linear_obstacle_advance (env : Env) (g : Game) (i : ℕ) (o : Linear)
    (hi : g.obstacles[i]? = some (.linear o)) :
    (∃ o' : Linear, (updateObstacles env g).obstacles[i]? = some (.linear o') ∧
      o'.x = o.x + o.speedX * (g.gameSpeedMultiplier * g.difficultyMultiplier.speed) ∧
      o'.y = o.y + o.speedY * (g.gameSpeedMultiplier * g.difficultyMultiplier.speed) ∧
      o'.width = o.width ∧ o'.height = o.height) ∧
    (∀ N : ℕ,
      (∀ k : ℕ, 1 ≤ k → k ≤ N →
        (0 < o.x + k * (o.speedX * (g.gameSpeedMultiplier * g.difficultyMultiplier.speed)) ∧
          o.x + k * (o.speedX * (g.gameSpeedMultiplier * g.difficultyMultiplier.speed))
            < g.width - o.width) ∧
        (0 < o.y + k * (o.speedY * (g.gameSpeedMultiplier * g.difficultyMultiplier.speed)) ∧
          o.y + k * (o.speedY * (g.gameSpeedMultiplier * g.difficultyMultiplier.speed))
            < g.height - o.height)) →
      ((updateObstacles env)^[N] g).obstacles[i]? = some (.linear { o with
        x := o.x + N * (o.speedX * (g.gameSpeedMultiplier * g.difficultyMultiplier.speed))
        y := o.y + N * (o.speedY * (g.gameSpeedMultiplier * g.difficultyMultiplier.speed)) })) := by
  refine ⟨?_, ?_⟩
  · have h : (updateObstacles env g).obstacles[i]? = some (updateObstacle env g (.linear o)) := by
      simp only [updateObstacles, List.getElem?_map, hi, Option.map_some']
    rw [h]
    exact ⟨_, rfl, rfl, rfl, rfl, rfl⟩
  · intro N h
    rw [updateObstacles_iterate]
    simp only [List.getElem?_map, hi, Option.map_some']
    rw [updateObstacle_iterate_linear env g o N h]

/-- Witness for C8: the obstacle of `demoGame` starts at (180, 150) with velocity
(7/2, 2) and multiplier 1; after 3 ticks inside the arena it is at
(180 + 3 × 7/2, 150 + 3 × 2). -/
theorem linear_obstacle_advance_witness :
    ((updateObstacles demoEnv)^[3] demoGame).obstacles[0]? = some (.linear
      { x := 180 + 3 * (7 / 2), y := 150 + 3 * 2, width := 18, height := 18,
        speedX := 7 / 2, speedY := 2 }) := by
  have h := (linear_obstacle_advance demoEnv demoGame 0
    { x := 180, y := 150, width := 18, height := 18, speedX := 7 / 2, speedY := 2 } rfl).2 3
    (by
      intro k h1 h3
      have hk : (k : ℚ) ≤ 3 := by exact_mod_cast h3
      have hk0 : (0 : ℚ) ≤ k := Nat.cast_nonneg k
      simp only [demoGame]
      refine ⟨⟨?_, ?_⟩, ⟨?_, ?_⟩⟩ <;> nlinarith)
  rw [h]
  simp [demoGame]

/-- C9, counterexample: an obstacle at x = 3 with x-velocity -3 (multiplier 1)
arrives at x = 0, an endpoint of the closed range [0, width - 18], where the
claim keeps the velocity; the code negates it to 3.  (Its y arrives at 102,
strictly inside, and the y-velocity is kept.) -/
theorem bounce_at_endpoint_counterexample :
    updateObstacle demoEnv demoGame
        (.linear { x := 3, y := 100, width := 18, height := 18, speedX := -3, speedY := 2 })
      = .linear { x := 0, y := 102, width := 18, height := 18, speedX := 3, speedY := 2 } ∧
    (0 : ℚ) ≤ 0 ∧ (0 : ℚ) ≤ demoGame.width - 18 ∧ (3 : ℚ) ≠ -3 := by
  refine ⟨?_, le_refl _, ?_, by norm_num⟩
  · simp [updateObstacle, demoGame]
    norm_num
  · simp [demoGame]
    norm_num

/-- C9, amended: `updateObstacles` negates a linear obstacle's x-velocity when
its new x is at or beyond an end of the range (`x ≤ 0` or `x ≥ width - w`) and
keeps it when the new x lies strictly inside `(0, width - w)`; the same holds
for the y-velocity with `(0, height - h)`, each axis being decided from its own
coordinate only. -/
theorem linear_obstacle_bounce (env : Env) (g : Game) (i : ℕ) (o : Linear)
    (hi : g.obstacles[i]? = some (.linear o)) :
    ∃ o' : Linear, (updateObstacles env g).obstacles[i]? = some (.linear o') ∧
      o'.speedX = (if o'.x ≤ 0 ∨ o'.x ≥ g.width - o.width then -o.speedX else o.speedX) ∧
      o'.speedY = (if o'.y ≤ 0 ∨ o'.y ≥ g.height - o.height then -o.speedY else o.speedY) ∧
      ((o'.x ≤ 0 ∨ o'.x ≥ g.width - o.width) → o'.speedX = -o.speedX) ∧
      ((0 < o'.x ∧ o'.x < g.width - o.width) → o'.speedX = o.speedX) ∧
      ((o'.y ≤ 0 ∨ o'.y ≥ g.height - o.height) → o'.speedY = -o.speedY) ∧
      ((0 < o'.y ∧ o'.y < g.height - o.height) → o'.speedY = o.speedY) := by
  have h : (updateObstacles env g).obstacles[i]? = some (updateObstacle env g (.linear o)) := by
    simp only [updateObstacles, List.getElem?_map, hi, Option.map_some']
  rw [h]
  refine ⟨_, rfl, ?_, ?_, ?_, ?_, ?_, ?_⟩
  · dsimp only
    split_ifs <;> ring
  · dsimp only
    split_ifs <;> ring
  · intro hc
    dsimp only at hc ⊢
    rw [if_pos hc]; ring
  · intro hc
    dsimp only at hc ⊢
    rw [if_neg (by rw [not_or, not_le, not_le]; exact hc)]
  · intro hc
    dsimp only at hc ⊢
    rw [if_pos hc]; ring
  · intro hc
    dsimp only at hc ⊢
    rw [if_neg (by rw [not_or, not_le, not_le]; exact hc)]

/-- Witness for C9: the obstacle of `demoGame` moves to (180 + 7/2, 152), inside
the arena, and keeps its velocity. -/
theorem linear_obstacle_bounce_witness :
    ∃ o' : Linear, (updateObstacles demoEnv demoGame).obstacles[0]? = some (.linear o') ∧
      o'.speedX = (if o'.x ≤ 0 ∨ o'.x ≥ demoGame.width - 18 then -(7 / 2) else 7 / 2) := by
  obtain ⟨o', h1, h2, _⟩ := linear_obstacle_bounce demoEnv demoGame 0
    { x := 180, y := 150, width := 18, height := 18, speedX := 7 / 2, speedY := 2 } rfl
  exact ⟨o', h1, h2⟩

/-- C10, counterexample: an orbital obstacle whose centre is set to (400, 0),
at angle 0 with angular speed 0, radius 50 and size 10.  The claim puts it at
y = 0 + 50 × sin 0 - 5 = -5; the code takes 300 for the zero coordinate and
puts it at y = 295 (and at x = 400 + 50 - 5 = 445, as the claim says). -/
theorem orbital_zero_centre_counterexample :
    updateObstacle demoEnv demoGame
        (.orbital { x := 0, y := 0, width := 10, height := 10, angle := 0, radius := 50,
                    speed := 0, centerX := some 400, centerY := some 0 })
      = .orbital { x := 445, y := 295, width := 10, height := 10, angle := 0, radius := 50,
                   speed := 0, centerX := some 400, centerY := some 0 } ∧
    (295 : ℚ) ≠ 0 + 50 * demoEnv.sin 0 - 10 / 2 := by
  refine ⟨?_, ?_⟩
  · simp [updateObstacle, orDefault, demoEnv, demoGame]
    norm_num
  · simp [demoEnv]
    norm_num

/-- C10, amended: one `updateObstacles` tick adds speed × (gameSpeedMultiplier ×
difficulty speed multiplier) to the angle of an orbital obstacle and then sets
`x = cx + radius × cos(angle) - width/2` and `y = cy + radius × sin(angle) - height/2`
with the new angle, where `cx` is the obstacle's `centerX` when that is set and
non-zero and 300 when it is unset or zero, and `cy` likewise from `centerY`;
radius, size, angular speed and centre are unchanged. -/
theorem orbital_obstacle_step (env : Env) (g : Game) (i : ℕ) (o : Orbital) (cx cy : ℚ)
    (hi : g.obstacles[i]? = some (.orbital o))
    (hx : (o.centerX = none ∧ cx = 300) ∨ (o.centerX = some 0 ∧ cx = 300) ∨
      (o.centerX = some cx ∧ cx ≠ 0))
    (hy : (o.centerY = none ∧ cy = 300) ∨ (o.centerY = some 0 ∧ cy = 300) ∨
      (o.centerY = some cy ∧ cy ≠ 0)) :
    (updateObstacles env g).obstacles[i]? = some (.orbital { o with
      angle := o.angle + o.speed * (g.gameSpeedMultiplier * g.difficultyMultiplier.speed)
      x := cx + o.radius * env.cos
          (o.angle + o.speed * (g.gameSpeedMultiplier * g.difficultyMultiplier.speed))
        - o.width / 2
      y := cy + o.radius * env.sin
          (o.angle + o.speed * (g.gameSpeedMultiplier * g.difficultyMultiplier.speed))
        - o.height / 2 }) := by
  have hcx : orDefault o.centerX 300 = cx := by
    rcases hx with ⟨h, rfl⟩ | ⟨h, rfl⟩ | ⟨h, h0⟩ <;> simp [orDefault, h]
    exact fun h => absurd h h0
  have hcy : orDefault o.centerY 300 = cy := by
    rcases hy with ⟨h, rfl⟩ | ⟨h, rfl⟩ | ⟨h, h0⟩ <;> simp [orDefault, h]
    exact fun h => absurd h h0
  simp only [updateObstacles, List.getElem?_map, hi, Option.map_some', updateObstacle, hcx, hcy,
    mul_comm (env.cos _), mul_comm (env.sin _)]

/-- Witness for C10: an orbital obstacle of level 2 (no centre set, size 14,
radius 60, angle 0, angular speed 0) placed in `demoGame`: it is put at
(300 + 60 × cos 0 - 7, 300 + 60 × sin 0 - 7) = (353, 293). -/
theorem orbital_obstacle_step_witness :
    (updateObstacles demoEnv demoOrbit).obstacles[0]? = some (.orbital
      { x := 353, y := 293, width := 14, height := 14, angle := 0, radius := 60, speed := 0,
        centerX := none, centerY := none }) := by
  rw [orbital_obstacle_step demoEnv demoOrbit 0
    { x := 400, y := 200, width := 14, height := 14, angle := 0, radius := 60, speed := 0,
      centerX := none, centerY := none } 300 300 rfl (Or.inl ⟨rfl, rfl⟩) (Or.inl ⟨rfl, rfl⟩)]
  simp [demoEnv, demoOrbit, demoGame]
  norm_num

/-- C11: with lives mode off, `playerDied` adds exactly one to `deaths`, puts the
player at (50, 300) (its size and speed unchanged), sets `collected` to false on
every collectible, and leaves `gameOver`, the level, the obstacles and the lives
counter as they were. -/
theorem playerDied_lives_off (env : Env) (g : Game) (h : g.livesEnabled = false) :
    (playerDied env g).deaths = g.deaths + 1 ∧
    (playerDied env g).player = { g.player with x := 50, y := 300 } ∧
    (playerDied env g).collectibles = g.collectibles.map (fun c => { c with collected := false }) ∧
    (∀ c ∈ (playerDied env g).collectibles, c.collected = false) ∧
    (playerDied env g).gameOver = g.gameOver ∧
    (playerDied env g).level = g.level ∧
    (playerDied env g).obstacles = g.obstacles ∧
    (playerDied env g).currentLives = g.currentLives := by
  have hl : (deathEffects env g).livesEnabled = false :=
    (deathEffects_inv Game.livesEnabled (fun _ _ _ _ _ _ _ => rfl) env g).trans h
  have hc : (deathEffects env g).collectibles = g.collectibles :=
    deathEffects_inv Game.collectibles (fun _ _ _ _ _ _ _ => rfl) env g
  rw [playerDied_eq, hl]
  simp only [Bool.false_eq_true, if_false]
  refine ⟨deathEffects_deaths env g, ?_, ?_, ?_, ?_, ?_, ?_, ?_⟩
  · rw [deathEffects_inv Game.player (fun _ _ _ _ _ _ _ => rfl) env g]
  · rw [hc]
  · rw [hc]
    intro c hc'
    obtain ⟨c0, _, rfl⟩ := List.mem_map.1 hc'
    rfl
  · exact deathEffects_inv Game.gameOver (fun _ _ _ _ _ _ _ => rfl) env g
  · exact deathEffects_inv Game.level (fun _ _ _ _ _ _ _ => rfl) env g
  · exact deathEffects_inv Game.obstacles (fun _ _ _ _ _ _ _ => rfl) env g
  · exact deathEffects_inv Game.currentLives (fun _ _ _ _ _ _ _ => rfl) env g

/-- Witness for C11: `demoGame` has lives mode off; after a death the player is
at (50, 300) and there is one death. -/
theorem playerDied_lives_off_witness :
    (playerDied demoEnv demoGame).deaths = 1 ∧
    (playerDied demoEnv demoGame).player.x = 50 ∧
    (playerDied demoEnv demoGame).player.y = 300 := by
  obtain ⟨h1, h2, _⟩ := playerDied_lives_off demoEnv demoGame rfl
  refine ⟨h1, ?_, ?_⟩ <;> rw [h2]

/-- C12: in lives mode `playerDied` takes one from `currentLives`.  If lives
remain, the player respawns at (50, 300), every collectible keeps its flag and
`gameOver` keeps its value (false stays false); if the result is 0, `gameOver`
becomes true.  With `maxLives = 3` and all lives left, three deaths in a row
give lives 2 and 1, each with the collectibles retained and the game still on,
and then lives 0 with `gameOver = true`. -/
theorem playerDied_lives_on (env : Env) (g : Game) (h : g.livesEnabled = true) :
    (playerDied env g).currentLives = g.currentLives - 1 ∧
    (0 < g.currentLives - 1 →
      (playerDied env g).player = { g.player with x := 50, y := 300 } ∧
      (playerDied env g).collectibles = g.collectibles ∧
      (playerDied env g).gameOver = g.gameOver) ∧
    (g.currentLives - 1 = 0 → (playerDied env g).gameOver = true) ∧
    (g.maxLives = 3 → g.currentLives = g.maxLives → g.gameOver = false →
      ((playerDied env g).currentLives = 2 ∧
        (playerDied env g).collectibles = g.collectibles ∧
        (playerDied env g).gameOver = false ∧
        (playerDied env g).player = { g.player with x := 50, y := 300 }) ∧
      ((playerDied env (playerDied env g)).currentLives = 1 ∧
        (playerDied env (playerDied env g)).collectibles = g.collectibles ∧
        (playerDied env (playerDied env g)).gameOver = false ∧
        (playerDied env (playerDied env g)).player = { g.player with x := 50, y := 300 }) ∧
      ((playerDied env (playerDied env (playerDied env g))).currentLives = 0 ∧
        (playerDied env (playerDied env (playerDied env g))).gameOver = true)) := by
  obtain ⟨a1, _, a3, a4, a5⟩ := playerDied_lives_on_aux env g h
  refine ⟨a1, fun hp => ⟨(a4 hp).1, a3, (a4 hp).2⟩, fun h0 => (a5 (le_of_eq h0)).1, ?_⟩
  intro hm hc hg
  rw [hm] at hc
  have h1 := playerDied_livesEnabled env g
  rw [h] at h1
  obtain ⟨b1, _, b3, b4, _⟩ := playerDied_lives_on_aux env (playerDied env g) h1
  have h2 := playerDied_livesEnabled env (playerDied env g)
  rw [h1] at h2
  obtain ⟨c1, _, _, _, c5⟩ := playerDied_lives_on_aux env (playerDied env (playerDied env g)) h2
  have e1 : (playerDied env g).currentLives = 2 := by rw [a1, hc]; norm_num
  have e2 : (playerDied env (playerDied env g)).currentLives = 1 := by rw [b1, e1]; norm_num
  have e3 : (playerDied env (playerDied env (playerDied env g))).currentLives = 0 := by
    rw [c1, e2]; norm_num
  have p1 := a4 (by rw [hc]; norm_num)
  have p2 := b4 (by rw [e1]; norm_num)
  have p3 := c5 (by rw [e2]; norm_num)
  refine ⟨⟨e1, a3, p1.2.trans hg, p1.1⟩, ⟨e2, b3.trans a3, (p2.2.trans p1.2).trans hg, ?_⟩,
    ⟨e3, p3.1⟩⟩
  rw [p2.1, p1.1]

/-- Witness for C12: `demoLives` is in lives mode with 3 of 3 lives and one
collectible collected; the third death in a row ends the game. -/
theorem playerDied_lives_on_witness :
    (playerDied demoEnv demoLives).currentLives = 2 ∧
    (playerDied demoEnv (playerDied demoEnv demoLives)).collectibles = demoLives.collectibles ∧
    (playerDied demoEnv (playerDied demoEnv (playerDied demoEnv demoLives))).gameOver = true := by
  obtain ⟨_, _, _, h⟩ := playerDied_lives_on demoEnv demoLives rfl
  obtain ⟨h1, h2, h3⟩ := h rfl rfl rfl
  exact ⟨h1.1, h2.2.1, h3.2⟩

/-- C13: when `paused` or `gameOver` is true, `update` returns the game it was
given, whatever the environment and the inputs: timer, player, obstacles,
collectibles, particles, deaths, lives and level are all unchanged.  So no
number of further frames leaves the paused or game-over state. -/
theorem update_frozen (env : Env) (g : Game) (h : g.paused = true ∨ g.gameOver = true) :
    update env g = g ∧
    (∀ envs : List Env, envs.foldl (fun s e => update e s) g = g) ∧
    (∀ n : ℕ, (update env)^[n] g = g) := by
  have hstep : ∀ e : Env, update e g = g := by
    intro e
    unfold update
    rw [if_pos]
    rcases h with h | h <;> simp [h]
  refine ⟨hstep env, ?_, ?_⟩
  · intro envs
    induction envs with
    | nil => rfl
    | cons e es ih => rw [List.foldl_cons, hstep e, ih]
  · intro n
    induction n with
    | zero => rfl
    | succ n ih => rw [Function.iterate_succ_apply', ih, hstep env]

/-- Witness for C13: the paused `demoGame` is unchanged by a frame. -/
theorem update_frozen_witness :
    update demoEnv { demoGame with paused := true } = { demoGame with paused := true } :=
  (update_frozen demoEnv { demoGame with paused := true } (Or.inl rfl)).1

/-- C14: `recordLevelCompletion deaths time` stores `{deaths, time, completed: true}`
for the current level exactly when that level has no record or its stored deaths
exceed `deaths`, and otherwise returns the game unchanged; other levels are never
touched.  When a record exists, the deaths stored afterwards are the minimum of
the stored and the new value, hence never more than before, and a run with
equally many deaths does not overwrite. -/
theorem recordLevelCompletion_best (g : Game) (deaths time : ℤ) :
    ((g.levelStats g.level = none ∨
        ∃ stat, g.levelStats g.level = some stat ∧ stat.deaths > deaths) →
      (recordLevelCompletion g deaths time).levelStats = Function.update g.levelStats g.level
        (some { deaths := deaths, time := time, completed := true })) ∧
    (¬ (g.levelStats g.level = none ∨
        ∃ stat, g.levelStats g.level = some stat ∧ stat.deaths > deaths) →
      recordLevelCompletion g deaths time = g) ∧
    (∀ l, l ≠ g.level → (recordLevelCompletion g deaths time).levelStats l = g.levelStats l) ∧
    (∀ stat, g.levelStats g.level = some stat →
      ∃ stat', (recordLevelCompletion g deaths time).levelStats g.level = some stat' ∧
        stat'.deaths = min stat.deaths deaths ∧ stat'.deaths ≤ stat.deaths ∧
        (stat.deaths = deaths → recordLevelCompletion g deaths time = g)) := by
  cases hs : g.levelStats g.level with
  | none =>
    have e : (recordLevelCompletion g deaths time).levelStats =
        Function.update g.levelStats g.level (some ⟨deaths, time, true⟩) := by
      unfold recordLevelCompletion
      rw [hs]
      rfl
    refine ⟨fun _ => e, fun hn => absurd (Or.inl rfl) hn, ?_, ?_⟩
    · intro l hl
      rw [e]
      exact Function.update_noteq hl _ _
    · intro stat0 h0
      cases h0
  | some stat =>
    by_cases hd : stat.deaths > deaths
    · have e : (recordLevelCompletion g deaths time).levelStats =
          Function.update g.levelStats g.level (some ⟨deaths, time, true⟩) := by
        unfold recordLevelCompletion
        rw [hs]
        dsimp only
        rw [if_pos (decide_eq_true hd)]
        rfl
      refine ⟨fun _ => e, fun hn => absurd (Or.inr ⟨stat, rfl, hd⟩) hn, ?_, ?_⟩
      · intro l hl
        rw [e]
        exact Function.update_noteq hl _ _
      · intro stat0 h0
        cases h0
        rw [e]
        refine ⟨_, Function.update_same _ _ _, ?_, ?_, ?_⟩
        · exact (min_eq_right (le_of_lt hd)).symm
        · exact le_of_lt hd
        · intro he
          rw [he] at hd
          exact absurd hd (lt_irrefl _)
    · have e : recordLevelCompletion g deaths time = g := by
        unfold recordLevelCompletion
        rw [hs]
        dsimp only
        rw [if_neg]
        simpa using hd
      rw [e]
      refine ⟨?_, fun _ => rfl, fun _ _ => rfl, ?_⟩
      · rintro (h | ⟨st, h1, h2⟩)
        · cases h
        · cases h1
          exact absurd h2 hd
      · intro stat0 h0
        cases h0
        exact ⟨_, hs, (min_eq_left (not_lt.1 hd)).symm, le_refl _, fun _ => rfl⟩


/-- Witness for C14: level 1 of `demoStored` has a record with 5 deaths; a run
with 2 deaths replaces it, and the stored deaths become min(5, 2) = 2. -/
theorem recordLevelCompletion_best_witness :
    ∃ stat', (recordLevelCompletion demoStored 2 40).levelStats 1 = some stat' ∧
      stat'.deaths = min 5 2 := by
  obtain ⟨stat', h1, h2, _⟩ :=
    (recordLevelCompletion_best demoStored 2 40).2.2.2 ⟨5, 30, true⟩ rfl
  exact ⟨stat', h1, h2⟩

/-- C15, counterexample: level 1 is completed while the stored watermark is 0
(with `maxLevel` 10).  The level differs from the watermark, so the claim leaves
the watermark at 0; the code raises it to 2. -/
theorem unlock_above_watermark_counterexample :
    (unlockNextLevel { demoGame with unlockedLevels := 0 }).unlockedLevels = 2 ∧
    ({ demoGame with unlockedLevels := 0 } : Game).level = 1 ∧
    ({ demoGame with unlockedLevels := 0 } : Game).unlockedLevels = 0 ∧
    ({ demoGame with unlockedLevels := 0 } : Game).maxLevel = 10 := by
  refine ⟨?_, rfl, rfl, rfl⟩
  rw [unlockNextLevel_unlockedLevels]
  simp [demoGame]

/-- C15, amended: `unlockNextLevel` sets the watermark to `level + 1` when
`level ≥ watermark` and `level < maxLevel`, and otherwise returns the game
unchanged.  So the watermark advances by exactly 1 if and only if
`level = watermark` and `level < maxLevel`; when `level > watermark` (and
`level < maxLevel`) it jumps to `level + 1`. -/
theorem unlockNextLevel_advance (g : Game) :
    ((g.level ≥ g.unlockedLevels ∧ g.level < g.maxLevel) →
      (unlockNextLevel g).unlockedLevels = g.level + 1) ∧
    (¬ (g.level ≥ g.unlockedLevels ∧ g.level < g.maxLevel) → unlockNextLevel g = g) ∧
    ((unlockNextLevel g).unlockedLevels = g.unlockedLevels + 1 ↔
      (g.level = g.unlockedLevels ∧ g.level < g.maxLevel)) := by
  refine ⟨fun h => ?_, fun h => ?_, ?_⟩
  · rw [unlockNextLevel_unlockedLevels, if_pos h]
  · unfold unlockNextLevel
    rw [if_neg h]
  · rw [unlockNextLevel_unlockedLevels]
    constructor
    · intro h
      split_ifs at h with hc
      · exact ⟨by omega, hc.2⟩
      · omega
    · rintro ⟨h1, h2⟩
      rw [if_pos ⟨le_of_eq h1.symm, h2⟩, h1]

/-- Witness for C15: in `demoGame` level 1 is the watermark and below
`maxLevel`; the watermark becomes 2. -/
theorem unlockNextLevel_advance_witness :
    (unlockNextLevel demoGame).unlockedLevels = 2 :=
  (unlockNextLevel_advance demoGame).1 (by simp [demoGame])

/-- C16: `unlockNextLevel` never lowers the watermark, and a watermark that is at
most `maxLevel` before the call is at most `maxLevel` after it (`maxLevel` itself
is not changed). -/
theorem unlockNextLevel_monotone (g : Game) :
    g.unlockedLevels ≤ (unlockNextLevel g).unlockedLevels ∧
    (g.unlockedLevels ≤ g.maxLevel → (unlockNextLevel g).unlockedLevels ≤ g.maxLevel) ∧
    (unlockNextLevel g).maxLevel = g.maxLevel := by
  refine ⟨?_, ?_, ?_⟩
  · rw [unlockNextLevel_unlockedLevels]
    split_ifs with hc
    · omega
    · exact le_refl _
  · intro h
    rw [unlockNextLevel_unlockedLevels]
    split_ifs with hc
    · omega
    · exact h
  · unfold unlockNextLevel
    split_ifs <;> rfl

/-- Witness for C16: the watermark of `demoGame` goes from 1 to 2, below the
maximum 10. -/
theorem unlockNextLevel_monotone_witness :
    (unlockNextLevel demoGame).unlockedLevels ≤ 10 :=
  (unlockNextLevel_monotone demoGame).2.1 (by simp [demoGame])

/-- C17: for a completed level that is at most the watermark, `unlockNextLevel`
gives `watermark + 1` when `level = watermark` and `level < maxLevel`, and leaves
the watermark unchanged when `level < watermark`.  Level 3 with watermark 3 and
`maxLevel` 10 gives 4; level 2 with watermark 5 gives 5. -/
theorem unlockNextLevel_scenarios (g : Game) (h : g.level ≤ g.unlockedLevels) :
    (g.level = g.unlockedLevels → g.level < g.maxLevel →
      (unlockNextLevel g).unlockedLevels = g.unlockedLevels + 1) ∧
    (g.level < g.unlockedLevels → (unlockNextLevel g).unlockedLevels = g.unlockedLevels) ∧
    (g.level = 3 → g.unlockedLevels = 3 → g.maxLevel = 10 →
      (unlockNextLevel g).unlockedLevels = 4) ∧
    (g.level = 2 → g.unlockedLevels = 5 → (unlockNextLevel g).unlockedLevels = 5) ∧
    (g.level = g.unlockedLevels ∨ g.level < g.unlockedLevels) := by
  rw [unlockNextLevel_unlockedLevels]
  refine ⟨?_, ?_, ?_, ?_, le_iff_eq_or_lt.1 h⟩
  · intro h1 h2
    rw [if_pos ⟨le_of_eq h1.symm, h2⟩, h1]
  · intro h1
    rw [if_neg (fun hc => absurd hc.1 (not_le.2 h1))]
  · intro h1 h2 h3
    rw [if_pos (by omega), h1]
    rfl
  · intro h1 h2
    rw [if_neg (by omega), h2]

/-- Witness for C17: level 3 with watermark 3 and `maxLevel` 10 gives watermark
4. -/
theorem unlockNextLevel_scenarios_witness :
    (unlockNextLevel { demoGame with level := 3, unlockedLevels := 3 }).unlockedLevels = 4 :=
  (unlockNextLevel_scenarios { demoGame with level := 3, unlockedLevels := 3 }
    (le_refl _)).2.2.1 rfl rfl rfl

/-- C18: for the levels 1 to 5 `initLevel` generates exactly: level 1, 5 linear
obstacles and 2 collectibles; level 2, 7 linear and 2 orbital obstacles and 3
collectibles; level 3, 6 orbital and 3 linear obstacles and 2 collectibles;
level 4, 8 orbital and 4 linear obstacles and 3 collectibles; level 5, 12
orbital and 3 linear obstacles and 4 collectibles (no other obstacles in any of
them); and every collectible starts uncollected. -/
theorem initLevel_fixed_counts (env : Env) (g : Game) :
    (g.level = 1 →
      (initLevel env g).obstacles.countP Obstacle.isLinear = 5 ∧
      (initLevel env g).obstacles.countP Obstacle.isOrbital = 0 ∧
      (initLevel env g).obstacles.length = 5 ∧
      (initLevel env g).collectibles.length = 2 ∧
      ∀ c ∈ (initLevel env g).collectibles, c.collected = false) ∧
    (g.level = 2 →
      (initLevel env g).obstacles.countP Obstacle.isLinear = 7 ∧
      (initLevel env g).obstacles.countP Obstacle.isOrbital = 2 ∧
      (initLevel env g).obstacles.length = 9 ∧
      (initLevel env g).collectibles.length = 3 ∧
      ∀ c ∈ (initLevel env g).collectibles, c.collected = false) ∧
    (g.level = 3 →
      (initLevel env g).obstacles.countP Obstacle.isOrbital = 6 ∧
      (initLevel env g).obstacles.countP Obstacle.isLinear = 3 ∧
      (initLevel env g).obstacles.length = 9 ∧
      (initLevel env g).collectibles.length = 2 ∧
      ∀ c ∈ (initLevel env g).collectibles, c.collected = false) ∧
    (g.level = 4 →
      (initLevel env g).obstacles.countP Obstacle.isOrbital = 8 ∧
      (initLevel env g).obstacles.countP Obstacle.isLinear = 4 ∧
      (initLevel env g).obstacles.length = 12 ∧
      (initLevel env g).collectibles.length = 3 ∧
      ∀ c ∈ (initLevel env g).collectibles, c.collected = false) ∧
    (g.level = 5 →
      (initLevel env g).obstacles.countP Obstacle.isOrbital = 12 ∧
      (initLevel env g).obstacles.countP Obstacle.isLinear = 3 ∧
      (initLevel env g).obstacles.length = 15 ∧
      (initLevel env g).collectibles.length = 4 ∧
      ∀ c ∈ (initLevel env g).collectibles, c.collected = false) := by
  refine ⟨fun h => ?_, fun h => ?_, fun h => ?_, fun h => ?_, fun h => ?_⟩
  · unfold initLevel
    dsimp only
    rw [if_pos h, (createLevel1_lists _).1, (createLevel1_lists _).2]
    refine ⟨rfl, rfl, rfl, rfl, ?_⟩
    intro c hc
    simp at hc
    rcases hc with rfl | rfl <;> rfl
  · unfold initLevel
    dsimp only
    rw [if_neg (by rw [h]; norm_num), if_pos h, (createLevel2_lists _ _).1,
      (createLevel2_lists _ _).2]
    refine ⟨rfl, rfl, rfl, rfl, ?_⟩
    intro c hc
    simp at hc
    obtain ⟨i, _, rfl⟩ := hc
    rfl
  · unfold initLevel
    dsimp only
    rw [if_neg (by rw [h]; norm_num), if_neg (by rw [h]; norm_num), if_pos h,
      (createLevel3_lists _ _).1, (createLevel3_lists _ _).2]
    refine ⟨rfl, rfl, rfl, rfl, ?_⟩
    intro c hc
    simp at hc
    rcases hc with rfl | rfl <;> rfl
  · unfold initLevel
    dsimp only
    rw [if_neg (by rw [h]; norm_num), if_neg (by rw [h]; norm_num),
      if_neg (by rw [h]; norm_num), if_pos h,
      (createLevel4_lists _ _).1, (createLevel4_lists _ _).2]
    refine ⟨rfl, rfl, rfl, rfl, ?_⟩
    intro c hc
    simp at hc
    obtain ⟨i, _, rfl⟩ := hc
    rfl
  · unfold initLevel
    dsimp only
    rw [if_neg (by rw [h]; norm_num), if_neg (by rw [h]; norm_num),
      if_neg (by rw [h]; norm_num), if_neg (by rw [h]; norm_num), if_pos h,
      (createLevel5_lists _ _).1, (createLevel5_lists _ _).2]
    refine ⟨rfl, rfl, rfl, rfl, ?_⟩
    intro c hc
    simp at hc
    obtain ⟨i, _, rfl⟩ := hc
    rfl


/-- Witness for C18: `demoGame` is at level 1; its generated level has 5 linear
obstacles, no orbital one, and 2 collectibles. -/
theorem initLevel_fixed_counts_witness :
    (initLevel demoEnv demoGame).obstacles.countP Obstacle.isLinear = 5 ∧
    (initLevel demoEnv demoGame).obstacles.countP Obstacle.isOrbital = 0 ∧
    (initLevel demoEnv demoGame).collectibles.length = 2 := by
  obtain ⟨h1, h2, _, h4, _⟩ := (initLevel_fixed_counts demoEnv demoGame).1 rfl
  exact ⟨h1, h2, h4⟩

/-- C19: for every level from 6 on and every random source, `initLevel`
generates exactly `8 + 2 × level` obstacles, `4 + level` of them orbital and
`4 + level` linear, and exactly `min(5, floor(level / 2) + 2)` collectibles
(`level / 2` below is the integer floor division), which is 5, all
uncollected. -/
theorem initLevel_procedural_counts (env : Env) (g : Game) (h : 6 ≤ g.level) :
    ((initLevel env g).obstacles.length : ℤ) = 8 + 2 * g.level ∧
    ((initLevel env g).obstacles.countP Obstacle.isOrbital : ℤ) = 4 + g.level ∧
    ((initLevel env g).obstacles.countP Obstacle.isLinear : ℤ) = 4 + g.level ∧
    ((initLevel env g).collectibles.length : ℤ) = min 5 (g.level / 2 + 2) ∧
    (initLevel env g).collectibles.length = 5 ∧
    (∀ c ∈ (initLevel env g).collectibles, c.collected = false) := by
  obtain ⟨l1, l2, l3, ho, hc, n1, n2, n3, p1, p2, p3⟩ := createRandomLevel_lists env
    { g with obstacles := [], collectibles := [], player := { g.player with x := 50, y := 300 } }
  have eo : (initLevel env g).obstacles = l1 ++ l2 := by
    unfold initLevel
    dsimp only
    rw [if_neg (by omega), if_neg (by omega), if_neg (by omega), if_neg (by omega),
      if_neg (by omega), ho]
    rfl
  have ec : (initLevel env g).collectibles = l3 := by
    unfold initLevel
    dsimp only
    rw [if_neg (by omega), if_neg (by omega), if_neg (by omega), if_neg (by omega),
      if_neg (by omega), hc]
    rfl
  have hfloor : ⌊(8 + (g.level : ℚ) * 2) / 2⌋ = 4 + g.level := by
    have : (8 + (g.level : ℚ) * 2) / 2 = ((4 + g.level : ℤ) : ℚ) := by push_cast; ring
    rw [this, Int.floor_intCast]
  have hhalf : ⌊(g.level : ℚ) / 2⌋ = g.level / 2 := by
    have := Rat.floor_intCast_div_natCast g.level 2
    simpa using this
  dsimp only at n1 n2 n3
  rw [hfloor] at n1 n2
  rw [hhalf] at n3
  have c1 : l1.countP Obstacle.isOrbital = l1.length :=
    List.countP_eq_length.2 (fun o ho => (p1 o ho).1)
  have c2 : l2.countP Obstacle.isOrbital = 0 :=
    List.countP_eq_zero.2 (fun o ho => by simp [(p2 o ho).2])
  have c3 : l1.countP Obstacle.isLinear = 0 :=
    List.countP_eq_zero.2 (fun o ho => by simp [(p1 o ho).2])
  have c4 : l2.countP Obstacle.isLinear = l2.length :=
    List.countP_eq_length.2 (fun o ho => (p2 o ho).1)
  have hmin : min 5 (g.level / 2 + 2) = 5 := by
    apply min_eq_left
    omega
  rw [eo, ec, List.countP_append, List.countP_append, List.length_append, c1, c2, c3, c4, n1, n2,
    n3, hmin]
  refine ⟨?_, ?_, ?_, ?_, ?_, p3⟩
  · push_cast
    rw [Int.toNat_of_nonneg (by omega)]
    ring
  · push_cast
    rw [Int.toNat_of_nonneg (by omega)]
    ring
  · push_cast
    rw [Int.toNat_of_nonneg (by omega)]
    ring
  · rfl
  · rfl

/-- Witness for C19: level 6 has 20 obstacles. -/
theorem initLevel_procedural_counts_witness :
    ((initLevel demoEnv { demoGame with level := 6 }).obstacles.length : ℤ) = 8 + 2 * 6 :=
  (initLevel_procedural_counts demoEnv { demoGame with level := 6 } (le_refl _)).1

/-- C20: for the levels 1 to 5 the obstacle and collectible lists that
`initLevel` generates depend on the level number only (and on the functions
`Math.sin` and `Math.PI`, which are fixed): two games at the same level, under
two environments that may differ in the random source and the clock, get the
same lists, whatever their obstacles, collectibles and player position were
before; in particular generating the level a second time gives the same lists
again. -/
theorem initLevel_fixed_deterministic (env env' : Env) (g g' : Game)
    (hsin : env.sin = env'.sin) (hpi : env.pi = env'.pi)
    (hl : g.level = g'.level) (h1 : 1 ≤ g.level) (h5 : g.level ≤ 5) :
    (initLevel env g).obstacles = (initLevel env' g').obstacles ∧
    (initLevel env g).collectibles = (initLevel env' g').collectibles ∧
    (initLevel env' (initLevel env g)).obstacles = (initLevel env g).obstacles ∧
    (initLevel env' (initLevel env g)).collectibles = (initLevel env g).collectibles := by
  have key : ∀ (a b : Game), a.level = b.level → 1 ≤ a.level → a.level ≤ 5 →
      (initLevel env a).obstacles = (initLevel env' b).obstacles ∧
      (initLevel env a).collectibles = (initLevel env' b).collectibles := by
    intro a b hab ha1 ha5
    have hcases : a.level = 1 ∨ a.level = 2 ∨ a.level = 3 ∨ a.level = 4 ∨ a.level = 5 := by
      omega
    unfold initLevel
    dsimp only
    rw [← hab]
    rcases hcases with h | h | h | h | h
    · rw [if_pos h, if_pos h, (createLevel1_lists _).1, (createLevel1_lists _).2,
        (createLevel1_lists _).1, (createLevel1_lists _).2]
      exact ⟨rfl, rfl⟩
    · rw [if_neg (by rw [h]; norm_num), if_pos h, if_neg (by rw [h]; norm_num), if_pos h,
        (createLevel2_lists _ _).1, (createLevel2_lists _ _).2,
        (createLevel2_lists _ _).1, (createLevel2_lists _ _).2, hsin, hpi]
      exact ⟨rfl, rfl⟩
    · rw [if_neg (by rw [h]; norm_num), if_neg (by rw [h]; norm_num), if_pos h,
        if_neg (by rw [h]; norm_num), if_neg (by rw [h]; norm_num), if_pos h,
        (createLevel3_lists _ _).1, (createLevel3_lists _ _).2,
        (createLevel3_lists _ _).1, (createLevel3_lists _ _).2, hpi]
      exact ⟨rfl, rfl⟩
    · rw [if_neg (by rw [h]; norm_num), if_neg (by rw [h]; norm_num),
        if_neg (by rw [h]; norm_num), if_pos h,
        if_neg (by rw [h]; norm_num), if_neg (by rw [h]; norm_num),
        if_neg (by rw [h]; norm_num), if_pos h,
        (createLevel4_lists _ _).1, (createLevel4_lists _ _).2,
        (createLevel4_lists _ _).1, (createLevel4_lists _ _).2, hpi]
      exact ⟨rfl, rfl⟩
    · rw [if_neg (by rw [h]; norm_num), if_neg (by rw [h]; norm_num),
        if_neg (by rw [h]; norm_num), if_neg (by rw [h]; norm_num), if_pos h,
        if_neg (by rw [h]; norm_num), if_neg (by rw [h]; norm_num),
        if_neg (by rw [h]; norm_num), if_neg (by rw [h]; norm_num), if_pos h,
        (createLevel5_lists _ _).1, (createLevel5_lists _ _).2,
        (createLevel5_lists _ _).1, (createLevel5_lists _ _).2, hpi]
      exact ⟨rfl, rfl⟩
  obtain ⟨k1, k2⟩ := key g g' hl h1 h5
  obtain ⟨k3, k4⟩ := key g (initLevel env g) (initLevel_level env g).symm h1 h5
  exact ⟨k1, k2, k3.symm, k4.symm⟩

/-- Witness for C20: level 1 generated for `demoGame` under `demoEnv` and for a
game with other lists and another player position under another random source
gives the same obstacles. -/
theorem initLevel_fixed_deterministic_witness :
    (initLevel demoEnv demoGame).obstacles =
      (initLevel { demoEnv with random := fun _ => 0 } demoOrbit).obstacles :=
  (initLevel_fixed_deterministic demoEnv { demoEnv with random := fun _ => 0 } demoGame
    demoOrbit rfl rfl rfl (by simp [demoGame]) (by simp [demoGame])).1

/-- C21: for every level index `initLevel` builds its two lists from empty ones,
so they hold freshly generated entries only and do not depend on the lists the
game had before; it puts the player at (50, 300), keeping its size and speed,
and sets the goal to the rectangle with x = width - 80, y = height / 2 - 40,
width 60 and height 80. -/
theorem initLevel_fresh (env : Env) (g : Game) :
    (∀ (os : List Obstacle) (cs : List Collectible),
      initLevel env { g with obstacles := os, collectibles := cs } = initLevel env g) ∧
    (∀ (x y : ℚ),
      (initLevel env { g with player := { g.player with x := x, y := y } }).obstacles
        = (initLevel env g).obstacles ∧
      (initLevel env { g with player := { g.player with x := x, y := y } }).collectibles
        = (initLevel env g).collectibles) ∧
    (initLevel env g).player = { g.player with x := 50, y := 300 } ∧
    (initLevel env g).goal =
      { x := g.width - 80, y := g.height / 2 - 40, width := 60, height := 80 } := by
  refine ⟨fun os cs => rfl, fun x y => ⟨rfl, rfl⟩, ?_, ?_⟩
  · exact initLevel_inv Game.player (fun _ _ _ _ => rfl) (fun _ _ => rfl) env g
  · have hw := initLevel_inv Game.width (fun _ _ _ _ => rfl) (fun _ _ => rfl) env g
    have hh := initLevel_inv Game.height (fun _ _ _ _ => rfl) (fun _ _ => rfl) env g
    have e : (initLevel env g).goal =
        { x := (initLevel env g).width - 80, y := (initLevel env g).height / 2 - 40,
          width := 60, height := 80 } := rfl
    rw [e, hw, hh]

/-- Witness for C21: `initLevel` on `demoGame` (640 by 600) puts the goal at
(560, 260) with size 60 by 80 and the player at (50, 300). -/
theorem initLevel_fresh_witness :
    (initLevel demoEnv demoGame).goal = { x := 560, y := 260, width := 60, height := 80 } ∧
    (initLevel demoEnv demoGame).player.x = 50 ∧ (initLevel demoEnv demoGame).player.y = 300 := by
  obtain ⟨_, _, hp, hg⟩ := initLevel_fresh demoEnv demoGame
  rw [hp, hg]
  refine ⟨?_, rfl, rfl⟩
  simp [demoGame]
  norm_num

/-- C22: when `level < maxLevel`, `nextLevel` raises the level by exactly one,
sets `deaths` to 0 and, in lives mode, sets `currentLives` to `maxLives`, all of
it on the game that `initLevel` then regenerates the layout of; when
`level ≥ maxLevel` the level is unchanged.  `maxLevel` is never changed, so a
level that is at most `maxLevel` stays at most `maxLevel`. -/
theorem nextLevel_level (env : Env) (g : Game) :
    (g.level < g.maxLevel →
      (nextLevel env g).level = g.level + 1 ∧ (nextLevel env g).deaths = 0 ∧
      (g.livesEnabled = true → (nextLevel env g).currentLives = g.maxLives) ∧
      ∃ g' : Game, nextLevel env g = initLevel env g' ∧ g'.level = g.level + 1 ∧
        g'.deaths = 0 ∧ (g.livesEnabled = true → g'.currentLives = g.maxLives)) ∧
    (g.maxLevel ≤ g.level → (nextLevel env g).level = g.level) ∧
    (nextLevel env g).maxLevel = g.maxLevel ∧
    (g.level ≤ g.maxLevel → (nextLevel env g).level ≤ (nextLevel env g).maxLevel) := by
  obtain ⟨f1, _, f3, f4⟩ := nextLevel_fields env g
  refine ⟨fun h => ⟨(f4 h).1, (f4 h).2.1, (f4 h).2.2.1, ?_⟩, f3, f1, ?_⟩
  · have hl : (levelCompleted env g).level = g.level :=
      levelCompleted_inv Game.level (fun _ _ _ _ _ => rfl) env g
    have hm : (levelCompleted env g).maxLevel = g.maxLevel :=
      levelCompleted_inv Game.maxLevel (fun _ _ _ _ _ => rfl) env g
    have he : (levelCompleted env g).livesEnabled = g.livesEnabled :=
      levelCompleted_inv Game.livesEnabled (fun _ _ _ _ _ => rfl) env g
    have hml : (levelCompleted env g).maxLives = g.maxLives :=
      levelCompleted_inv Game.maxLives (fun _ _ _ _ _ => rfl) env g
    rw [nextLevel_eq, if_neg (by rw [hl, hm]; exact not_le.2 h)]
    refine ⟨_, rfl, ?_, ?_, ?_⟩
    · split_ifs <;> exact congrArg (· + 1) hl
    · split_ifs <;> rfl
    · intro hlives
      rw [if_pos (he.trans hlives)]
      exact hml
  · intro h
    rw [f1]
    rcases lt_or_eq_of_le h with hlt | heq
    · rw [(f4 hlt).1]
      omega
    · rw [f3 (le_of_eq heq.symm)]
      exact h

/-- Witness for C22: `demoLives` is at level 1 of 10, in lives mode; after
`nextLevel` it is at level 2 with no deaths and 3 lives. -/
theorem nextLevel_level_witness :
    (nextLevel demoEnv demoLives).level = 2 ∧ (nextLevel demoEnv demoLives).deaths = 0 ∧
    (nextLevel demoEnv demoLives).currentLives = 3 := by
  obtain ⟨h1, h2, h3, _⟩ := (nextLevel_level demoEnv demoLives).1 (by simp [demoLives, demoGame])
  exact ⟨h1, h2, h3 rfl⟩

/-- C27: the current level stays unlocked.  If `level ≤ unlockedLevels` before
`nextLevel`, for any `maxLevel`, it holds after it.  `selectLevel n` with
`n ≤ unlockedLevels` sets the level to `n`, which is unlocked; with
`n > unlockedLevels` it returns the game unchanged (level, deaths, obstacles and
collectibles included), so it changes the level only when `n ≤ unlockedLevels`. -/
theorem level_stays_unlocked (env : Env) (g : Game) (n : ℤ) :
    (g.level ≤ g.unlockedLevels →
      (nextLevel env g).level ≤ (nextLevel env g).unlockedLevels) ∧
    (n ≤ g.unlockedLevels →
      (selectLevel env g n).level = n ∧
      (selectLevel env g n).level ≤ (selectLevel env g n).unlockedLevels) ∧
    (¬ n ≤ g.unlockedLevels → selectLevel env g n = g) ∧
    ((selectLevel env g n).level ≠ g.level → n ≤ g.unlockedLevels) := by
  obtain ⟨_, f2, f3, f4⟩ := nextLevel_fields env g
  have hsel : n ≤ g.unlockedLevels →
      (selectLevel env g n).level = n ∧ (selectLevel env g n).unlockedLevels = g.unlockedLevels := by
    intro h
    unfold selectLevel
    rw [if_pos h]
    exact ⟨initLevel_inv Game.level (fun _ _ _ _ => rfl) (fun _ _ => rfl) env _,
      initLevel_inv Game.unlockedLevels (fun _ _ _ _ => rfl) (fun _ _ => rfl) env _⟩
  have hnot : ¬ n ≤ g.unlockedLevels → selectLevel env g n = g := by
    intro h
    unfold selectLevel
    rw [if_neg h]
  refine ⟨?_, ?_, hnot, ?_⟩
  · intro h
    rw [f2]
    by_cases hmax : g.level < g.maxLevel
    · rw [(f4 hmax).1]
      split_ifs with hc
      · exact le_refl _
      · have : g.level < g.unlockedLevels := by
          by_contra hge
          exact hc ⟨not_lt.1 hge, hmax⟩
        omega
    · rw [f3 (not_lt.1 hmax), if_neg (fun hc => hmax hc.2)]
      exact h
  · intro h
    obtain ⟨h1, h2⟩ := hsel h
    exact ⟨h1, by rw [h1, h2]; exact h⟩
  · intro hne
    by_contra hn
    rw [hnot hn] at hne
    exact hne rfl

/-- Witness for C27: `demoGame` is at level 1 with watermark 1; after
`nextLevel` it is at level 2 with watermark 2. -/
theorem level_stays_unlocked_witness :
    (nextLevel demoEnv demoGame).level ≤ (nextLevel demoEnv demoGame).unlockedLevels :=
  (level_stays_unlocked demoEnv demoGame 1).1 (by simp [demoGame])

/-- C25: whatever the keys and the gesture and touch targets, a player inside
the arena (`0 ≤ x ≤ width - player.width` and `0 ≤ y ≤ height - player.height`)
is inside the arena after `updatePlayer`; arena and player size are not
changed. -/
theorem updatePlayer_in_arena (env : Env) (g : Game)
    (hx : 0 ≤ g.player.x ∧ g.player.x ≤ g.width - g.player.width)
    (hy : 0 ≤ g.player.y ∧ g.player.y ≤ g.height - g.player.height) :
    (0 ≤ (updatePlayer env g).player.x ∧
      (updatePlayer env g).player.x ≤
        (updatePlayer env g).width - (updatePlayer env g).player.width) ∧
    (0 ≤ (updatePlayer env g).player.y ∧
      (updatePlayer env g).player.y ≤
        (updatePlayer env g).height - (updatePlayer env g).player.height) ∧
    (updatePlayer env g).width = g.width ∧ (updatePlayer env g).height = g.height ∧
    (updatePlayer env g).player.width = g.player.width ∧
    (updatePlayer env g).player.height = g.player.height := by
  cases hp : proposedPosition env g with
  | none =>
    have e : updatePlayer env g = g := by
      unfold updatePlayer
      rw [hp]
    rw [e]
    exact ⟨hx, hy, rfl, rfl, rfl, rfl⟩
  | some p =>
    obtain ⟨px, py⟩ := p
    rw [updatePlayer_of_some env g px py hp]
    dsimp only
    refine ⟨?_, ?_, rfl, rfl, rfl, rfl⟩
    · split_ifs with h
      · exact h
      · exact hx
    · split_ifs with h
      · exact h
      · exact hy

/-- Witness for C25: the player of `demoGame` starts inside the 640 by 600 arena
and is inside it after `updatePlayer`. -/
theorem updatePlayer_in_arena_witness :
    0 ≤ (updatePlayer demoEnv demoGame).player.x ∧
    (updatePlayer demoEnv demoGame).player.x ≤
      (updatePlayer demoEnv demoGame).width - (updatePlayer demoEnv demoGame).player.width :=
  (updatePlayer_in_arena demoEnv demoGame (by simp [demoGame]; norm_num)
    (by simp [demoGame]; norm_num)).1

/-- C28: take a linear obstacle with x strictly inside `(0, width - w)` and a
positive speed multiplier.  If a tick carries x out of that open interval, the
x-velocity is negated, and the tick after it brings x back exactly to its value
before the bounce and keeps the negated velocity (no second bounce).  Hence
after any number of ticks x lies between `-(|speedX| × multiplier)` and
`width - w + |speedX| × multiplier`. -/
theorem linear_obstacle_returns (env : Env) (g : Game) (i : ℕ) (o : Linear)
    (hi : g.obstacles[i]? = some (.linear o))
    (hm : 0 < g.gameSpeedMultiplier * g.difficultyMultiplier.speed)
    (hx : 0 < o.x ∧ o.x < g.width - o.width) :
    ((o.x + o.speedX * (g.gameSpeedMultiplier * g.difficultyMultiplier.speed) ≤ 0 ∨
        o.x + o.speedX * (g.gameSpeedMultiplier * g.difficultyMultiplier.speed)
          ≥ g.width - o.width) →
      ∃ o1 o2 : Linear,
        (updateObstacles env g).obstacles[i]? = some (.linear o1) ∧
        o1.x = o.x + o.speedX * (g.gameSpeedMultiplier * g.difficultyMultiplier.speed) ∧
        o1.speedX = -o.speedX ∧
        (updateObstacles env (updateObstacles env g)).obstacles[i]? = some (.linear o2) ∧
        o2.x = o.x ∧ o2.speedX = -o.speedX) ∧
    (∀ n : ℕ, ∃ ot : Linear,
      ((updateObstacles env)^[n] g).obstacles[i]? = some (.linear ot) ∧
      -(|o.speedX| * (g.gameSpeedMultiplier * g.difficultyMultiplier.speed)) ≤ ot.x ∧
      ot.x ≤ g.width - o.width
        + |o.speedX| * (g.gameSpeedMultiplier * g.difficultyMultiplier.speed)) := by
  refine ⟨?_, ?_⟩
  · intro hb
    have h1 : (updateObstacles env g).obstacles[i]? = some (updateObstacle env g (.linear o)) := by
      simp only [updateObstacles, List.getElem?_map, hi, Option.map_some']
    have h2 : (updateObstacles env (updateObstacles env g)).obstacles[i]?
        = some (updateObstacle env g (updateObstacle env g (.linear o))) := by
      have e := updateObstacles_iterate env g 2
      simp only [Function.iterate_succ, Function.iterate_zero, Function.comp_apply, id_eq] at e
      rw [e]
      simp only [List.getElem?_map, hi, Option.map_some']
      rfl
    rw [h1, h2]
    refine ⟨_, _, rfl, rfl, ?_, rfl, ?_, ?_⟩
    · dsimp only
      rw [if_pos hb, mul_neg_one]
    · dsimp only
      rw [if_pos hb]
      ring
    · dsimp only
      rw [if_pos hb]
      have e : o.x + o.speedX * (g.gameSpeedMultiplier * g.difficultyMultiplier.speed)
          + o.speedX * -1 * (g.gameSpeedMultiplier * g.difficultyMultiplier.speed) = o.x := by
        ring
      rw [e, if_neg (by rw [not_or, not_le, not_le]; exact hx), mul_neg_one]
  · intro n
    have h0 : BounceInv g.width (g.gameSpeedMultiplier * g.difficultyMultiplier.speed)
        o.speedX o.width (.linear o) := ⟨o, rfl, rfl, rfl, Or.inl hx⟩
    have hn := bounceInv_iterate env g o.speedX o.width _ n h0
    obtain ⟨l, hl, hrest⟩ := hn
    refine ⟨l, ?_, bounceInv_bound _ _ _ _ hm l ⟨l, rfl, hrest⟩⟩
    rw [updateObstacles_iterate]
    simp only [List.getElem?_map, hi, Option.map_some', hl]

/-- Witness for C28: the obstacle of `demoGame` starts at x = 180 inside
(0, 622) with multiplier 1; after 200 ticks its x is within 7/2 of [0, 622]. -/
theorem linear_obstacle_returns_witness :
    ∃ ot : Linear, ((updateObstacles demoEnv)^[200] demoGame).obstacles[0]? = some (.linear ot) ∧
      -(|(7 / 2 : ℚ)| * (1 * 1)) ≤ ot.x ∧ ot.x ≤ 640 - 18 + |(7 / 2 : ℚ)| * (1 * 1) :=
  (linear_obstacle_returns demoEnv demoGame 0
    { x := 180, y := 150, width := 18, height := 18, speedX := 7 / 2, speedY := 2 } rfl
    (by simp [demoGame]) (by simp [demoGame]; norm_num)).2 200

/-- C29: every obstacle that `initLevel` generates, at the levels 1 to 5 and at
the procedural levels, has no centre set.  So after any positive number of
`updateObstacles` ticks each orbital one is at
`(300 + radius × cos(angle) - width/2, 300 + radius × sin(angle) - height/2)`:
it orbits (300, 300).  And the result of a tick on an orbital obstacle
does not depend on the `x` and `y` it had. -/
theorem generated_orbit_centre (env : Env) (g : Game) :
    (∀ ob ∈ (initLevel env g).obstacles, ob.centreUnset) ∧
    (∀ (o : Orbital), .orbital o ∈ (initLevel env g).obstacles →
      o.centerX = none ∧ o.centerY = none) ∧
    (∀ (n i : ℕ) (o' : Orbital),
      ((updateObstacles env)^[n + 1] (initLevel env g)).obstacles[i]? = some (.orbital o') →
      o'.x = 300 + o'.radius * env.cos o'.angle - o'.width / 2 ∧
      o'.y = 300 + o'.radius * env.sin o'.angle - o'.height / 2) ∧
    (∀ (s : Game) (o : Orbital) (x y : ℚ),
      updateObstacle env s (.orbital { o with x := x, y := y })
        = updateObstacle env s (.orbital o)) := by
  refine ⟨initLevel_centre env g, fun o ho => initLevel_centre env g _ ho, ?_, ?_⟩
  · intro n i o' h
    rw [updateObstacles_iterate] at h
    simp only [List.getElem?_map, Option.map_eq_some'] at h
    obtain ⟨ob, hob, hit⟩ := h
    have hmem : ob ∈ (initLevel env g).obstacles := List.getElem?_mem hob
    rw [Function.iterate_succ_apply'] at hit
    exact updateObstacle_orbit env _ _
      (updateObstacle_iterate_centre env _ ob n (initLevel_centre env g ob hmem)) o' hit
  · intro s o x y
    rfl

/-- C30: `checkCollisions` raises `deaths` if and only if the player's
rectangle, where it is when the call starts, overlaps at least one obstacle
(and it never lowers `deaths`).  With lives mode off, when it does, the player
ends at the spawn point (50, 300) and the collectible pass runs there with all
flags reset: afterwards a collectible is collected exactly when it overlaps the
player's rectangle at the spawn point, so one that overlapped the player only
before the death is left uncollected. -/
theorem checkCollisions_deaths (env : Env) (g : Game) :
    (g.deaths < (checkCollisions env g).deaths ↔
      ∃ o ∈ g.obstacles, Overlaps g.player.rect o.rect) ∧
    g.deaths ≤ (checkCollisions env g).deaths ∧
    (g.livesEnabled = false → (∃ o ∈ g.obstacles, Overlaps g.player.rect o.rect) →
      (checkCollisions env g).player = { g.player with x := 50, y := 300 } ∧
      (checkCollisions env g).collectibles = g.collectibles.map (fun c =>
        { c with collected := decide (Overlaps
          { x := 50, y := 300, width := g.player.width, height := g.player.height } c.rect) }) ∧
      (∀ (i : ℕ) (c : Collectible), g.collectibles[i]? = some c →
        ¬ Overlaps { x := 50, y := 300, width := g.player.width, height := g.player.height }
          c.rect →
        (checkCollisions env g).collectibles[i]? = some { c with collected := false })) := by
  obtain ⟨c1, c2, c3, _, _⟩ := collectLoop_spec env (obstaclePass env g.obstacles g).collectibles
    (obstaclePass env g.obstacles g)
  have hd : (checkCollisions env g).deaths = (obstaclePass env g.obstacles g).deaths := by
    rw [checkCollisions_eq]
    exact c3
  have hcoll : (checkCollisions env g).collectibles =
      (obstaclePass env g.obstacles g).collectibles.map (fun c =>
        if c.collected = false ∧ Overlaps (obstaclePass env g.obstacles g).player.rect c.rect
        then { c with collected := true } else c) := by
    rw [checkCollisions_eq]
    exact c1
  have hpl : (checkCollisions env g).player = (obstaclePass env g.obstacles g).player := by
    rw [checkCollisions_eq]
    exact c2
  have hmap : g.livesEnabled = false → (∃ o ∈ g.obstacles, Overlaps g.player.rect o.rect) →
      (checkCollisions env g).player = { g.player with x := 50, y := 300 } ∧
      (checkCollisions env g).collectibles = g.collectibles.map (fun c =>
        { c with collected := decide (Overlaps
          { x := 50, y := 300, width := g.player.width, height := g.player.height }
          c.rect) }) := by
    intro hoff hhit
    have hlt := obstaclePass_hit env g.obstacles g hhit
    rcases obstaclePass_off env g.obstacles g hoff with e | ⟨e1, e2⟩
    · rw [e] at hlt
      exact absurd hlt (lt_irrefl _)
    · rw [hpl, hcoll, e1, e2, List.map_map]
      refine ⟨rfl, ?_⟩
      apply List.map_congr_left
      intro c _
      simp only [Function.comp_apply, true_and, Player.rect, Collectible.rect]
      by_cases hov : Overlaps
          { x := 50, y := 300, width := g.player.width, height := g.player.height }
          { x := c.x, y := c.y, width := c.width, height := c.height }
      · rw [if_pos hov, decide_eq_true hov]
      · rw [if_neg hov, decide_eq_false hov]
  refine ⟨?_, ?_, fun hoff hhit => ⟨(hmap hoff hhit).1, (hmap hoff hhit).2, ?_⟩⟩
  · rw [hd]
    constructor
    · intro hlt
      by_contra hno
      have hnone : ∀ o ∈ g.obstacles, ¬ Overlaps g.player.rect o.rect :=
        fun o ho hov => hno ⟨o, ho, hov⟩
      have e : obstaclePass env g.obstacles g = g := obstaclePass_of_no_hit env g.obstacles g hnone
      rw [e] at hlt
      exact absurd hlt (lt_irrefl _)
    · exact obstaclePass_hit env g.obstacles g
  · rw [hd]
    exact obstaclePass_deaths_le env g.obstacles g
  · intro i c hi hov
    rw [(hmap hoff hhit).2, List.getElem?_map, hi, Option.map_some', decide_eq_false hov]

/-- Witness for C30: in `demoHit` the obstacle overlaps the player, and the
collectible at (40, 310), which overlapped the player before the death, does not
overlap the rectangle at the spawn point: it stays uncollected. -/
theorem checkCollisions_deaths_witness :
    (checkCollisions demoEnv demoHit).collectibles[0]?
      = some { x := 40, y := 310, width := 9, height := 9, collected := false } :=
  (checkCollisions_deaths demoEnv demoHit).2.2 rfl
    ⟨.linear { x := 40, y := 295, width := 18, height := 18, speedX := 3, speedY := 2 },
      List.mem_cons_self _ _,
      by simp [Overlaps, Player.rect, Obstacle.rect, demoHit, demoGame]; norm_num⟩
    |>.2.2 0 { x := 40, y := 310, width := 9, height := 9, collected := false } rfl
      (by simp [Overlaps, Collectible.rect, demoHit, demoGame]; norm_num)

/-- C26, counterexample: lives mode with 1 life of 3 left and two obstacles that
both overlap the player.  The first hit takes the last life and sets `gameOver`
without moving the player, so the second obstacle hits too: `currentLives` ends
at -1 and `deaths` has risen by 2. -/
theorem last_life_two_hits_counterexample :
    demoLastLife.livesEnabled = true ∧ (1 : ℤ) ≤ demoLastLife.currentLives ∧
    demoLastLife.currentLives ≤ demoLastLife.maxLives ∧
    (checkCollisions demoEnv demoLastLife).currentLives = -1 ∧
    (checkCollisions demoEnv demoLastLife).gameOver = true ∧
    (checkCollisions demoEnv demoLastLife).deaths = demoLastLife.deaths + 2 := by
  obtain ⟨f1, f2, f3⟩ := checkCollisions_fields demoEnv demoLastLife
  obtain ⟨a1, a2, _, _, a5⟩ := playerDied_lives_on_aux demoEnv demoLastLife rfl
  have hl : (playerDied demoEnv demoLastLife).livesEnabled = true :=
    playerDied_livesEnabled demoEnv demoLastLife
  obtain ⟨b1, b2, _, _, b5⟩ := playerDied_lives_on_aux demoEnv (playerDied demoEnv demoLastLife) hl
  have hlives : demoLastLife.currentLives = 1 := rfl
  have hp := (a5 (by rw [hlives]; norm_num)).2
  have h1 : isColliding demoLastLife.player.rect (Obstacle.linear
      { x := 40, y := 295, width := 18, height := 18, speedX := 3, speedY := 2 }).rect = true := by
    simp [isColliding, Player.rect, Obstacle.rect, demoLastLife, demoGame]
    norm_num
  have h2 : isColliding (playerDied demoEnv demoLastLife).player.rect (Obstacle.linear
      { x := 50, y := 305, width := 18, height := 18, speedX := -3, speedY := 2 }).rect = true := by
    rw [hp]
    simp [isColliding, Player.rect, Obstacle.rect, demoLastLife, demoGame]
    norm_num
  have e : obstaclePass demoEnv demoLastLife.obstacles demoLastLife
      = playerDied demoEnv (playerDied demoEnv demoLastLife) := by
    show obstaclePass demoEnv [_, _] demoLastLife = _
    rw [obstaclePass_cons, if_pos h1, obstaclePass_cons, if_pos h2]
    rfl
  rw [f1, f2, f3, e, b1, b2, a1, a2, hlives]
  refine ⟨rfl, by norm_num, by simp [demoLastLife, demoGame], by norm_num, ?_, by ring⟩
  exact (b5 (by rw [a1, hlives]; norm_num)).1

/-- C26, amended: in lives mode, for every list of obstacles, `checkCollisions`
takes `k` lives and adds `k` deaths, where `k`, the number of hits, is at most
the number of obstacles; `gameOver` is true afterwards exactly when it was true
before or a hit left no life.  So `currentLives` stays at least 0 when there are
no more obstacles than lives, and otherwise can fall below 0, deaths rising by
one for every life taken, also after `gameOver` has been set. -/
theorem checkCollisions_lives (env : Env) (g : Game) (h : g.livesEnabled = true) :
    ∃ k : ℕ, k ≤ g.obstacles.length ∧
      (checkCollisions env g).currentLives = g.currentLives - k ∧
      (checkCollisions env g).deaths = g.deaths + k ∧
      ((checkCollisions env g).gameOver = true ↔
        (g.gameOver = true ∨ (1 ≤ k ∧ g.currentLives - k ≤ 0))) ∧
      ((g.obstacles.length : ℤ) ≤ g.currentLives → 0 ≤ (checkCollisions env g).currentLives) := by
  obtain ⟨f1, f2, f3⟩ := checkCollisions_fields env g
  obtain ⟨k, hk, e1, e2, e3⟩ := obstaclePass_lives env g.obstacles g h
  refine ⟨k, hk, f2.trans e1, f1.trans e2, ?_, ?_⟩
  · rw [f3]
    exact e3
  · intro hlen
    rw [f2, e1]
    have : (k : ℤ) ≤ g.obstacles.length := by exact_mod_cast hk
    omega

/-- Witness for C26: `demoLives` is in lives mode with 3 lives and one obstacle;
`currentLives` is at least 0 after `checkCollisions`. -/
theorem checkCollisions_lives_witness :
    ∃ k : ℕ, k ≤ 1 ∧ (checkCollisions demoEnv demoLives).currentLives = 3 - k ∧
      0 ≤ (checkCollisions demoEnv demoLives).currentLives := by
  obtain ⟨k, hk, h1, _, _, h4⟩ := checkCollisions_lives demoEnv demoLives rfl
  exact ⟨k, hk, h1, h4 (by simp [demoLives, demoGame])⟩

/-- C23, failing input: the win on the last level leaves `gameOver` and
`paused` unset, so the next frame runs in full: the timer goes from 0 to
16/1000, the obstacle moves from (180, 150) to (183.5, 152), and the win test
fires again, with a second completion sound and victory screen. -/
theorem victory_not_terminal :
    demoVictory.level = demoVictory.maxLevel ∧
    (nextLevel demoEnv demoVictory).gameOver = false ∧
    (nextLevel demoEnv demoVictory).paused = false ∧
    (nextLevel demoEnv demoVictory).time = 0 ∧
    (nextLevel demoEnv demoVictory).obstacles = demoVictory.obstacles ∧
    (nextLevel demoEnv demoVictory).log =
      [.savedLevelStats 10 ⟨0, 0, true⟩, .sound 1000 (1 / 2) "sine", .victoryScreen] ∧
    (update demoEnv (nextLevel demoEnv demoVictory)).time = 16 / 1000 ∧
    (update demoEnv (nextLevel demoEnv demoVictory)).obstacles =
      [.linear { x := 367 / 2, y := 152, width := 18, height := 18,
                 speedX := 7 / 2, speedY := 2 }] ∧
    (update demoEnv (nextLevel demoEnv demoVictory)).log =
      (nextLevel demoEnv demoVictory).log ++ [.sound 1000 (1 / 2) "sine", .victoryScreen] := by
  have hn : nextLevel demoEnv demoVictory =
      { demoVictory with
        nowCalls := 1
        levelStats := Function.update demoVictory.levelStats 10 (some ⟨0, 0, true⟩)
        log := [.savedLevelStats 10 ⟨0, 0, true⟩, .sound 1000 (1 / 2) "sine",
                .victoryScreen] } := by
    simp [nextLevel, recordLevelCompletion, unlockNextLevel, playSound, showVictoryScreen,
      Game.emit, demoVictory, demoGame, demoEnv]
  rw [hn]
  refine ⟨rfl, rfl, rfl, rfl, rfl, rfl, ?_, ?_, ?_⟩ <;>
  norm_num [update, updateEffects, updatePlayer, proposedPosition, gestureBlock, touchBlock,
      keyboardBlock, updateObstacles, updateObstacle, updateParticles, checkCollisions,
      collectLoop, checkWinCondition, isColliding, Player.rect, Obstacle.rect,
      Collectible.rect, nextLevel, recordLevelCompletion, unlockNextLevel, playSound,
      showVictoryScreen, Game.emit, demoVictory, demoGame, demoEnv]

/-- C24, counterexample: with `abc` stored as progress, which `parseInt` turns
into `NaN`, `loadProgress` returns `NaN` and not the watermark 1; with an opening
brace stored as stats, which `JSON.parse` rejects, `loadLevelStats` throws
instead of returning the empty object. -/
theorem corrupt_storage_counterexample :
    demoCorrupt.getItem "spaceGameProgress" = some "abc" ∧
    demoCorrupt.parseInt "abc" = none ∧
    loadProgress demoCorrupt = none ∧
    loadProgress demoCorrupt ≠ some 1 ∧
    demoCorrupt.getItem "spaceGameLevelStats" = some "\x7b" ∧
    demoCorrupt.jsonParse "\x7b" = .error "SyntaxError" ∧
    loadLevelStats demoCorrupt = .error "SyntaxError" ∧
    loadLevelStats demoCorrupt ≠ .ok demoCorrupt.emptyObject := by
  refine ⟨?_, ?_, ?_, ?_, ?_, ?_, ?_, ?_⟩ <;>
  simp [loadProgress, loadLevelStats, demoCorrupt, truthy]

/-- C24, amended: the loaders fall back to the defaults exactly when the stored
value is absent or the empty string: then `loadProgress` returns 1 and
`loadLevelStats` the empty object, without an error.  For every other stored
text `loadProgress` returns what `parseInt` makes of it (`NaN` when it is not a
number) and `loadLevelStats` what `JSON.parse` makes of it (the thrown error
when it is not valid JSON). -/
theorem load_fallback {σ : Type} (b : Browser σ) :
    (b.getItem "spaceGameProgress" = none ∨ b.getItem "spaceGameProgress" = some "" →
      loadProgress b = some 1) ∧
    (∀ text : String, b.getItem "spaceGameProgress" = some text → text ≠ "" →
      loadProgress b = b.parseInt text) ∧
    (b.getItem "spaceGameLevelStats" = none ∨ b.getItem "spaceGameLevelStats" = some "" →
      loadLevelStats b = .ok b.emptyObject) ∧
    (∀ text : String, b.getItem "spaceGameLevelStats" = some text → text ≠ "" →
      loadLevelStats b = b.jsonParse text) := by
  refine ⟨?_, ?_, ?_, ?_⟩
  · intro h
    have ht := (truthy_eq_false_iff _).2 h
    simp [loadProgress, ht]
  · intro text h hne
    simp [loadProgress, h, truthy, hne]
  · intro h
    have ht := (truthy_eq_false_iff _).2 h
    simp [loadLevelStats, ht]
  · intro text h hne
    simp [loadLevelStats, h, truthy, hne]

/-- Witness for C24: with nothing stored the loaders return 1 and the empty
object; with `3` stored as progress and the text of an empty object stored as
stats they return what the parsers give, 3 and the empty list. -/
theorem load_fallback_witness :
    loadProgress { demoCorrupt with getItem := fun _ => none } = some 1 ∧
    loadLevelStats { demoCorrupt with getItem := fun _ => none } = .ok [] ∧
    loadProgress { demoCorrupt with getItem := fun _ => some "3" } = some 3 ∧
    loadLevelStats { demoCorrupt with getItem := fun _ => some "\x7b\x7d" } = .ok [] :=
  ⟨(load_fallback { demoCorrupt with getItem := fun _ => none }).1 (Or.inl rfl),
   (load_fallback { demoCorrupt with getItem := fun _ => none }).2.2.1 (Or.inl rfl),
   ((load_fallback { demoCorrupt with getItem := fun _ => some "3" }).2.1 "3" rfl
      (by decide)).trans (by simp [demoCorrupt]),
   ((load_fallback { demoCorrupt with getItem := fun _ => some "\x7b\x7d" }).2.2.2
      "\x7b\x7d" rfl (by decide)).trans (by simp [demoCorrupt])⟩

end GestureGame
